import Mathlib

/-!
# T3NS: U(1) symmetry labels, snapshots and target-state migration

A shallow embedding of `src/symmetry_u1.c` and of `src/io_to_disk.c` (the
writing and reading of a snapshot, `make_h5f_name`, and the target-state
migration of `change_seniority` and `change_targetstate`), with the
properties of the specification proved about it.

Conventions of the embedding:

* a C `int` is an `Int`; arithmetic on `int` goes through `wrapInt`, the
  32-bit two's complement value (signed overflow is undefined in C; the
  theorems that need exact arithmetic say that the result is representable);
* a C string is the `List Char` before its terminating NUL;
* a C array is a total map from indices to values, its length is the
  separate count the source keeps next to it.
-/

namespace T3NS

/-! ## Machine integers -/

/-- Smallest value of a 32-bit `int`. -/
def INT_MIN : Int := -2147483648

/-- Largest value of a 32-bit `int`. -/
def INT_MAX : Int := 2147483647

/-- A value that a 32-bit `int` can hold. -/
def isInt (x : Int) : Prop := INT_MIN ≤ x ∧ x ≤ INT_MAX

instance (x : Int) : Decidable (isInt x) := by
  unfold isInt; exact inferInstance

/-- The 32-bit two's complement value of an integer. -/
def wrapInt (x : Int) : Int := (x + 2147483648) % 4294967296 - 2147483648

/-! ## `symmetry_u1.c` -/

/-- The running maximum of the first loop of `U1_get_max_irrep` after `n`
iterations: `N = N < prop[i][whichsym] ? prop[i][whichsym] : N`, from `N = 0`. -/
def U1_max_loop (prop : Nat → Nat → Int) (whichsym : Nat) : Nat → Int
  | 0 => 0
  | n + 1 =>
    let N := U1_max_loop prop whichsym n
    if N < prop n whichsym then prop n whichsym else N

/-- `U1_get_max_irrep`: `N1max + N2max + 1`. -/
def U1_get_max_irrep (prop1 : Nat → Nat → Int) (nr1 : Int)
    (prop2 : Nat → Nat → Int) (nr2 : Int) (whichsym : Nat) : Int :=
  let N1max := U1_max_loop prop1 whichsym nr1.toNat
  let N2max := U1_max_loop prop2 whichsym nr2.toNat
  wrapInt (wrapInt (N1max + N2max) + 1)

/-- `U1_tensprod_irrep`: the triple `(*min_irrep, *nr_irreps, *step)`. -/
def U1_tensprod_irrep (irrep1 irrep2 sign : Int) : Int × Int × Int :=
  (wrapInt (irrep1 + wrapInt (sign * irrep2)), 1, 1)

/-- The character of a decimal digit `d < 10`. -/
def digitChar (d : Nat) : Char := Char.ofNat (48 + d)

/-- The decimal numeral of a natural number, most significant digit first. -/
def natToDec (n : Nat) : List Char :=
  if n = 0 then ['0'] else (Nat.digits 10 n).reverse.map digitChar

/-- The text `printf` writes for `%d`. -/
def formatInt (x : Int) : List Char :=
  if x < 0 then '-' :: natToDec x.natAbs else natToDec x.natAbs

/-- `U1_get_irrstring`: `snprintf(buffer, MY_STRING_LEN, "%d", irr)` keeps at
most `MY_STRING_LEN - 1` characters. -/
def U1_get_irrstring (MY_STRING_LEN : Nat) (irr : Int) : List Char :=
  (formatInt irr).take (MY_STRING_LEN - 1)

/-- The C library's `isspace` in the "C" locale. -/
def isspace (c : Char) : Bool :=
  c = ' ' || c = '\t' || c = '\n' || c = Char.ofNat 11 || c = Char.ofNat 12 || c = '\r'

/-- The C library's `isdigit`. -/
def isdigit (c : Char) : Bool := decide ('0' ≤ c) && decide (c ≤ '9')

/-- The value of the leading run of decimal digits of a text, accumulated
onto `acc`; stops at the first character that is not a digit. -/
def atoi_digits : List Char → Nat → Nat
  | [], acc => acc
  | c :: cs, acc =>
    if isdigit c then atoi_digits cs (acc * 10 + (c.toNat - 48)) else acc

/-- The sign and digits part of `atoi`, after the white space. -/
def atoi_signed : List Char → Int
  | [] => 0
  | c :: cs =>
    if c = '-' then - (atoi_digits cs 0 : Int)
    else if c = '+' then (atoi_digits cs 0 : Int)
    else (atoi_digits (c :: cs) 0 : Int)

/-- The least value of a 64-bit `long`. -/
def LONG_MIN : Int := -9223372036854775808

/-- The greatest value of a 64-bit `long`. -/
def LONG_MAX : Int := 9223372036854775807

/-- The value `strtol` returns for a numeral of value `x`: `x` itself, or
`LONG_MIN` or `LONG_MAX` when `x` lies below or above the range of `long`. -/
def strtol_value (x : Int) : Int :=
  if x < LONG_MIN then LONG_MIN else if LONG_MAX < x then LONG_MAX else x

/-- The C library's `atoi`, `(int) strtol(buffer, NULL, 10)`: skip white
space, read an optional sign and the digits that follow (`0` when there are
none), keep the value within the range of `long`, and convert it to `int`,
which keeps the low 32 bits. -/
def atoi (buffer : List Char) : Int :=
  wrapInt (strtol_value (atoi_signed (buffer.dropWhile isspace)))

/-- The text in which `atoi` looks for digits: what follows the white space
and one optional sign. -/
def atoi_numeral (buffer : List Char) : List Char :=
  match buffer.dropWhile isspace with
  | [] => []
  | c :: cs => if c = '-' ∨ c = '+' then cs else c :: cs

/-- `U1_which_irrep`: the pair `(return value, *irr)`. `buffer[0]` of an
empty text is the NUL, which is not `'0'`. -/
def U1_which_irrep (buffer : List Char) : Int × Int :=
  let irr := atoi buffer
  if xor (decide (irr ≠ 0)) (decide (buffer.head? = some '0')) then
    (if irr ≥ 0 then 1 else 0, irr)
  else
    (0, irr)

/-! ## `io_to_disk.c`: the state the migration works on -/

/-- The globals `bookie` and `netw`, as far as the migration and the reading
of a snapshot read or write them, together with the arrays `T3NS` and `ops`. `S`, `R` and
`T` are `struct symsecs`, `struct rOperators` and `struct siteTensor`. -/
structure GlobalState (S R T : Type) where
  /-- The count `bookie.nrSyms`. -/
  nrSyms : Int
  /-- The array `bookie.sgs`. -/
  sgs : Nat → Int
  /-- The array `bookie.target_state`. -/
  target_state : Nat → Int
  /-- The array `bookie.v_symsecs`, one sector list per bond. -/
  v_symsecs : Nat → S
  /-- The count `netw.nr_bonds`. -/
  nr_bonds : Int
  /-- The array `netw.bonds`, the two sites of every bond. -/
  bonds : Nat → Int × Int
  /-- The site tensors. -/
  T3NS : Int → T
  /-- The renormalized-operator sets, one per bond. -/
  ops : Nat → R
  /-- The count `bookie.nr_bonds`. -/
  bookie_nr_bonds : Int
  /-- The count `bookie.psites`. -/
  bookie_psites : Int
  /-- The array `bookie.p_symsecs`, one sector list per physical site. -/
  p_symsecs : Nat → S
  /-- The count `netw.psites`. -/
  psites : Int
  /-- The count `netw.sites`. -/
  sites : Int
  /-- The array `netw.sitetoorb`. -/
  sitetoorb : List Int
  /-- The count `netw.sweeplength`. -/
  sweeplength : Int
  /-- The array `netw.sweep`. -/
  sweep : List Int

/-- The routines and the constant that `change_seniority` and
`change_targetstate` take from other files of the program. Each routine
writes only through its first pointer argument; what it may read of the
globals is the state it is given here. -/
structure Externals (S R T : Type) where
  /-- The tag `SENIORITY` of `enum symmetrygroup`. -/
  SENIORITY : Int
  /-- The sector list that `init_targetstate(&sectors, 'd')` stores. -/
  init_targetstate : GlobalState S R T → S
  /-- The operator set left after `destroy_rOperators(&rops)` and
  `init_vacuum_rOperators(&rops, bond, is_left)`. -/
  init_vacuum_rOperators : GlobalState S R T → Int → Int → R
  /-- The tensor left by `change_sectors_tensor(tens, &oldtarget, bond)`. -/
  change_sectors_tensor : GlobalState S R T → T → S → Int → T
  /-- The tensor left by `norm_tensor(tens)`. -/
  norm_tensor : GlobalState S R T → T → T

/-- The search loop of `change_seniority`,
`for (endbond = 0; endbond < netw.nr_bonds; ++endbond) if (netw.bonds[endbond][1] == -1) break;`
from the value `endbond`, with `fuel = netw.nr_bonds - endbond` iterations left. -/
def endbond_loop (bonds : Nat → Int × Int) : Nat → Nat → Nat
  | 0, endbond => endbond
  | fuel + 1, endbond =>
    if (bonds endbond).2 = -1 then endbond else endbond_loop bonds fuel (endbond + 1)

/-- The value of `endbond` when the search loop of `change_seniority` ends. -/
def find_endbond {S R T : Type} (s : GlobalState S R T) : Nat :=
  endbond_loop s.bonds s.nr_bonds.toNat 0

/-- The condition of `assert(endbond != netw.nr_bonds)`. -/
def hasOpenBond {S R T : Type} (s : GlobalState S R T) : Prop :=
  (find_endbond s : Int) ≠ s.nr_bonds

instance {S R T : Type} (s : GlobalState S R T) : Decidable (hasOpenBond s) := by
  unfold hasOpenBond; exact inferInstance

/-- `change_seniority`: the return value and the state it leaves; `none`
when the assertion fails and the program stops. The messages to `stderr`
are not part of the state. -/
def change_seniority {S R T : Type} (ext : Externals S R T) (s : GlobalState S R T)
    (seniorsym : Nat) (oldsenior : Int) : Option (Int × GlobalState S R T) :=
  let newsenior := s.target_state seniorsym
  if oldsenior = newsenior then some (0, s)
  else
    let endbond := find_endbond s
    if (endbond : Int) = s.nr_bonds then none
    else if newsenior < 0 ∨ oldsenior < 0 then some (1, s)
    else
      let oldtarget := s.v_symsecs endbond
      let s1 := { s with v_symsecs := Function.update s.v_symsecs endbond (ext.init_targetstate s) }
      let s2 := { s1 with
        ops := Function.update s1.ops endbond (ext.init_vacuum_rOperators s1 endbond 0) }
      let site := (s2.bonds endbond).1
      let s3 := { s2 with
        T3NS := Function.update s2.T3NS site
          (ext.change_sectors_tensor s2 (s2.T3NS site) oldtarget endbond) }
      let s4 := { s3 with
        T3NS := Function.update s3.T3NS site (ext.norm_tensor s3 (s3.T3NS site)) }
      some (0, s4)

/-- The loop of `change_targetstate` from index `i`, with
`fuel = nrSyms - i` iterations left. -/
def change_targetstate_loop {S R T : Type} (ext : Externals S R T)
    (sgs target_state : Nat → Int) :
    Nat → Nat → GlobalState S R T → Option (Int × GlobalState S R T)
  | 0, _, s => some (0, s)
  | fuel + 1, i, s =>
    if sgs i ≠ s.sgs i then some (1, s)
    else if target_state i ≠ s.target_state i then
      if sgs i = ext.SENIORITY then
        match change_seniority ext s i (target_state i) with
        | none => none
        | some (r, s') =>
          if r = 0 then change_targetstate_loop ext sgs target_state fuel (i + 1) s'
          else some (1, s')
      else some (1, s)
    else change_targetstate_loop ext sgs target_state fuel (i + 1) s

/-- `change_targetstate`: the return value and the state it leaves; `none`
when an assertion of `change_seniority` fails. `sgs`, `target_state` and
`nrSyms` are what the snapshot holds. -/
def change_targetstate {S R T : Type} (ext : Externals S R T) (s : GlobalState S R T)
    (sgs target_state : Nat → Int) (nrSyms : Int) : Option (Int × GlobalState S R T) :=
  change_targetstate_loop ext sgs target_state nrSyms.toNat 0 s

/-- The return value `change_seniority` has in a state, without the state. -/
def seniority_code {S R T : Type} (s : GlobalState S R T) (seniorsym : Nat)
    (oldsenior : Int) : Option Int :=
  if oldsenior = s.target_state seniorsym then some 0
  else if (find_endbond s : Int) = s.nr_bonds then none
  else if s.target_state seniorsym < 0 ∨ oldsenior < 0 then some 1
  else some 0

/-- Index `i` of the snapshot's configuration is acceptable in state `s`:
the group tags agree, and the target labels agree or the group is
`SENIORITY` and `change_seniority` returns `0`. -/
def indexAccepted {S R T : Type} (ext : Externals S R T) (s : GlobalState S R T)
    (sgs target_state : Nat → Int) (i : Nat) : Prop :=
  sgs i = s.sgs i ∧
    (target_state i = s.target_state i ∨
      (sgs i = ext.SENIORITY ∧
        (change_seniority ext s i (target_state i)).map Prod.fst = some 0))

/-- The part of the state that decides what `change_targetstate` returns is
the same in `s'` as in `s`. -/
def sameConfig {S R T : Type} (s s' : GlobalState S R T) : Prop :=
  s'.sgs = s.sgs ∧ s'.target_state = s.target_state ∧ s'.bonds = s.bonds ∧
    s'.nr_bonds = s.nr_bonds

/-! ## A small network for examples -/

/-- The fields of `struct symsecs` that `io_to_disk.c` stores. A `double` is
only copied by this code and is kept as its 64-bit pattern. -/
structure symsecs where
  /-- Number of sectors. -/
  nrSecs : Int
  /-- The labels of every sector, one per symmetry slot. -/
  irreps : List (List Int)
  /-- The reference dimension of every sector, a `double`. -/
  fcidims : List Nat
  /-- The dimension of every sector. -/
  dims : List Int
  /-- The sum of the dimensions. -/
  totaldims : Int
deriving DecidableEq

/-- Modelled from the spec: `init_targetstate` is missing from the sources;
the sector list of the open bond is a single sector whose labels equal the
target state, here for two symmetry groups. -/
def exInitTargetstate {R T : Type} (s : GlobalState symsecs R T) : symsecs :=
  { nrSecs := 1, irreps := [[s.target_state 0, s.target_state 1]],
    fcidims := [4607182418800017408], dims := [1], totaldims := 1 }

/-- Externals for the examples: seniority has tag `11`, an operator set is
the pair of its bond and direction, a tensor is the list of its elements and
the two tensor routines leave it as it is. -/
def exExt : Externals symsecs (Int × Int) (List Int) :=
  { SENIORITY := 11
    init_targetstate := exInitTargetstate
    init_vacuum_rOperators := fun _ bond is_left => (bond, is_left)
    change_sectors_tensor := fun _ t _ _ => t
    norm_tensor := fun _ t => t }

/-- A network of two sites: bond `0` is the open bond at site `1`, bond `1`
joins site `0` to site `1`. The configured groups are seniority and a second
group, with target state `(4, 5)`; the open bond still has the sector list
for the target state `(2, 3)` of a snapshot. -/
def exState : GlobalState symsecs (Int × Int) (List Int) :=
  { nrSyms := 2
    sgs := fun i => if i = 0 then 11 else 1
    target_state := fun i => if i = 0 then 4 else 5
    v_symsecs := fun _ =>
      { nrSecs := 1, irreps := [[2, 3]], fcidims := [4607182418800017408], dims := [1],
        totaldims := 1 }
    nr_bonds := 2
    bonds := fun b => if b = 0 then (1, -1) else (0, 1)
    T3NS := fun _ => [1]
    ops := fun b => (b, 1)
    bookie_nr_bonds := 2
    bookie_psites := 2
    p_symsecs := fun _ =>
      { nrSecs := 1, irreps := [[0, 0]], fcidims := [4607182418800017408], dims := [1],
        totaldims := 1 }
    psites := 2
    sites := 2
    sitetoorb := [0, 1]
    sweeplength := 0
    sweep := [] }

/-- The group tags of the snapshot in the examples. -/
def exSgs : Nat → Int := fun i => if i = 0 then 11 else 1

/-- The target state of the snapshot in the examples. -/
def exTarget : Nat → Int := fun i => if i = 0 then 2 else 3

/-- The state `exState` with the configured seniority pinned to the fixed
value `-1`. -/
def exStateFixed : GlobalState symsecs (Int × Int) (List Int) :=
  { exState with target_state := fun _ => -1 }

/-! ## `io_to_disk.c`: the snapshot file

The HDF5 file is a tree of groups; a group has attributes, datasets and
subgroups, each found by its name. An attribute or dataset that exists is
not replaced by a second one of the same name, nor is a group. A handle of
a group that could not be opened is `none`. Reading what is not in the file
fails inside the library and leaves the destination as it was. -/

/-- The tags of `enum hdf5type`, which choose the stored datatype. -/
inductive hdf5type where
  | THDF5_INT
  | THDF5_DOUBLE
  | THDF5_EL_TYPE
  | THDF5_QN_TYPE
deriving DecidableEq

/-- The cells behind a `void *`: integers (`int`, `QN_TYPE`), or the 64-bit
patterns of `double` and `EL_TYPE` values. -/
inductive Buffer where
  | ints (cells : List Int)
  | doubles (cells : List Nat)
deriving DecidableEq

/-- The first `n` cells of a buffer. -/
def Buffer.first (n : Nat) : Buffer → Buffer
  | .ints l => .ints (l.take n)
  | .doubles l => .doubles (l.take n)

/-- What an attribute or a dataset holds. -/
structure H5Data where
  /-- The stored datatype. -/
  kind : hdf5type
  /-- The stored cells. -/
  data : Buffer
deriving DecidableEq

/-- The names of groups: the fixed ones, and what the `sprintf` formats
`./%c_symsec_%d`, `./block_%d`, `./tensor_%d` and `./rOperator_%d` give. -/
inductive H5Name where
  | fixed (name : String)
  | symsec (kind : Char) (nmbr : Int)
  | block (nmbr : Int)
  | tensor (nmbr : Int)
  | rOperator (nmbr : Int)
deriving DecidableEq

/-- A group of the file. -/
inductive H5Group where
  | mk (attributes : List (String × H5Data)) (datasets : List (String × H5Data))
      (groups : List (H5Name × H5Group))

/-- The attributes of a group. -/
def H5Group.attributes : H5Group → List (String × H5Data)
  | .mk a _ _ => a

/-- The datasets of a group. -/
def H5Group.datasets : H5Group → List (String × H5Data)
  | .mk _ d _ => d

/-- The subgroups of a group. -/
def H5Group.groups : H5Group → List (H5Name × H5Group)
  | .mk _ _ g => g

/-- A group that was just created. -/
def H5Group.empty : H5Group := .mk [] [] []

/-- The first entry of a given name. -/
def lookup_entry {κ α : Type} [DecidableEq κ] (k : κ) : List (κ × α) → Option α
  | [] => none
  | (k', v) :: rest => if k' = k then some v else lookup_entry k rest

/-- Add an entry under a name; the library refuses a name that exists. -/
def add_entry {κ α : Type} [DecidableEq κ] (k : κ) (v : α) (l : List (κ × α)) :
    List (κ × α) :=
  if (lookup_entry k l).isSome then l else l ++ [(k, v)]

/-- A group handed to `H5Gcreate` under `name` in `id`, as it is in the file
once it is closed. -/
def H5Gclose_created (id : H5Group) (name : H5Name) (group : H5Group) : H5Group :=
  .mk id.attributes id.datasets (add_entry name group id.groups)

/-- `H5Gopen`: the group of that name, `none` (a negative handle) when there
is none or `id` is no group. -/
def H5Gopen (id : Option H5Group) (name : H5Name) : Option H5Group :=
  match id with
  | none => none
  | some g => lookup_entry name g.groups

/-- The conversion of an `int` to the unsigned 64-bit `hsize_t`. -/
def hsize (x : Int) : Nat := (x % 18446744073709551616).toNat

/-- `write_attribute`: nothing is written for a null pointer or size `0`. -/
def write_attribute (group_id : H5Group) (atrname : String) (atr : Option Buffer)
    (size : Nat) (kind : hdf5type) : H5Group :=
  match atr with
  | none => group_id
  | some b =>
    if size = 0 then group_id
    else .mk (add_entry atrname ⟨kind, b.first size⟩ group_id.attributes)
      group_id.datasets group_id.groups

/-- `write_dataset`: nothing is written for a null pointer or size `0`. -/
def write_dataset (id : H5Group) (datname : String) (dat : Option Buffer)
    (size : Nat) (kind : hdf5type) : H5Group :=
  match dat with
  | none => id
  | some b =>
    if size = 0 then id
    else .mk id.attributes (add_entry datname ⟨kind, b.first size⟩ id.datasets) id.groups

/-- `read_attribute`: the cells the library delivers, `none` when the handle
is negative or the attribute is not there. -/
def read_attribute (id : Option H5Group) (atrname : String) : Option Buffer :=
  match id with
  | none => none
  | some g => (lookup_entry atrname g.attributes).map H5Data.data

/-- `read_dataset`: the cells the library delivers, `none` when the handle
is negative or the dataset is not there. -/
def read_dataset (id : Option H5Group) (datname : String) : Option Buffer :=
  match id with
  | none => none
  | some g => (lookup_entry datname g.datasets).map H5Data.data

/-- An `int` destination after a read: the first cell delivered, or the old
value when the read failed. -/
def store_int (r : Option Buffer) (old : Int) : Int :=
  match r with
  | some (.ints (x :: _)) => x
  | _ => old

/-- An `int` array after a read: the cells delivered replace the first
cells of the array; the array keeps its length. -/
def store_ints (r : Option Buffer) (old : List Int) : List Int :=
  match r with
  | some (.ints l) => (l ++ old.drop l.length).take old.length
  | _ => old

/-- A `double` array after a read, as `store_ints`. -/
def store_doubles (r : Option Buffer) (old : List Nat) : List Nat :=
  match r with
  | some (.doubles l) => (l ++ old.drop l.length).take old.length
  | _ => old

/-- An `int` array of fixed capacity, given as a map, after a read. -/
def store_map (r : Option Buffer) (old : Nat → Int) : Nat → Int :=
  match r with
  | some (.ints l) => fun i => l.getD i (old i)
  | _ => old

/-- The cell `a[i]` of an array; outside the array, where C reads what it
finds, the embedding reads `0`. -/
def cell (a : List Int) (i : Int) : Int := a.getD i.toNat 0

/-- The fields of `struct sparseblocks`; a null pointer is `none`. -/
structure sparseblocks where
  /-- The start of every block in `tel`, and the total size. -/
  beginblock : Option (List Int)
  /-- The elements, of `EL_TYPE`. -/
  tel : Option (List Nat)
deriving DecidableEq

/-- The fields of `struct siteTensor` that `io_to_disk.c` stores. -/
structure siteTensor where
  /-- Number of sites. -/
  nrsites : Int
  /-- The sites. -/
  sites : List Int
  /-- Number of blocks. -/
  nrblocks : Int
  /-- The quantum numbers, `nrsites` per block, of `QN_TYPE`. -/
  qnumbers : List Int
  /-- The blocks. -/
  blocks : sparseblocks
deriving DecidableEq

/-- The fields of `struct rOperators` that `io_to_disk.c` stores. -/
structure rOperators where
  /-- The bond, `-1` when not attached. -/
  bond_of_operator : Int
  /-- The direction, `-1` when not attached. -/
  is_left : Int
  /-- Whether physical legs were appended. -/
  P_operator : Int
  /-- Number of Hamiltonian symmetry sectors. -/
  nrhss : Int
  /-- The first block of every sector, and the total. -/
  begin_blocks_of_hss : List Int
  /-- The quantum numbers, of `QN_TYPE`. -/
  qnumbers : List Int
  /-- Number of operators. -/
  nrops : Int
  /-- The sector of every operator. -/
  hss_of_ops : List Int
  /-- The blocks of every operator. -/
  operators : List sparseblocks
deriving DecidableEq

/-- What memory holds that was allocated, or declared, and not yet written:
any values. -/
structure Uninit where
  /-- Cell `k` of an `int` or `QN_TYPE` array. -/
  int : Nat → Int
  /-- Cell `k` of a `double` or `EL_TYPE` array. -/
  double : Nat → Nat
  /-- Element `k` of an array of `struct symsecs`. -/
  symsecs : Nat → symsecs
  /-- Element `k` of an array of `struct sparseblocks`. -/
  sparseblocks : Nat → sparseblocks
  /-- Element `k` of an array of `struct siteTensor`. -/
  siteTensor : Int → siteTensor
  /-- Element `k` of an array of `struct rOperators`. -/
  rOperators : Nat → rOperators

/-- Modelled from the spec: `safe_malloc` is missing from the sources; the
declared count sizes the buffer, here `n` cells of an `int` array. -/
def safe_malloc_int (u : Uninit) (n : Int) : List Int :=
  (List.range n.toNat).map u.int

/-- Modelled from the spec: `safe_malloc` for `n` cells of a `double` array. -/
def safe_malloc_double (u : Uninit) (n : Int) : List Nat :=
  (List.range n.toNat).map u.double

/-- How a function of the program ends other than by returning. -/
inductive Stop where
  | exit_failure
  | assert_failure
deriving DecidableEq

/-! ## `io_to_disk.c`: writing and reading -/

/-- `write_symsec_to_disk`, with the build's `MAX_SYMMETRIES`; `irreps` is
the array of `nrSecs` rows stored one after the other. -/
def write_symsec_to_disk (MAX_SYMMETRIES : Int) (id : H5Group) (ssec : symsecs)
    (nmbr : Int) (kind : Char) : H5Group :=
  let g := H5Group.empty
  let g := write_attribute g "nrSecs" (some (.ints [ssec.nrSecs])) 1 .THDF5_INT
  let g := write_attribute g "totaldims" (some (.ints [ssec.totaldims])) 1 .THDF5_INT
  let g := write_dataset g "./dims" (some (.ints ssec.dims)) (hsize ssec.nrSecs) .THDF5_INT
  let g := write_dataset g "./irreps" (some (.ints ssec.irreps.flatten))
    (hsize (wrapInt (ssec.nrSecs * MAX_SYMMETRIES))) .THDF5_INT
  let g := write_dataset g "./fcidims" (some (.doubles ssec.fcidims)) (hsize ssec.nrSecs)
    .THDF5_DOUBLE
  H5Gclose_created id (.symsec kind nmbr) g

/-- `read_symsec_from_disk`: the sector list left in `*ssec`. A row of the
new `irreps` has the build's `MAX_SYMMETRIES` slots; the loop writes the
first `nrSyms` of them, the others stay as allocated. -/
def read_symsec_from_disk (u : Uninit) (MAX_SYMMETRIES : Int) (id : Option H5Group)
    (ssec : symsecs) (nmbr : Int) (offset nrSyms : Int) (kind : Char) : symsecs :=
  let group_id := H5Gopen id (.symsec kind nmbr)
  let nrSecs := store_int (read_attribute group_id "nrSecs") ssec.nrSecs
  let totaldims := store_int (read_attribute group_id "totaldims") ssec.totaldims
  let dims := store_ints (read_dataset group_id "./dims") (safe_malloc_int u nrSecs)
  let dummyirreps := store_ints (read_dataset group_id "./irreps")
    (safe_malloc_int u (wrapInt (nrSecs * offset)))
  let irreps := (List.range nrSecs.toNat).map fun (i : Nat) =>
    (List.range MAX_SYMMETRIES.toNat).map fun (j : Nat) =>
      if (j : Int) < nrSyms then cell dummyirreps (wrapInt (wrapInt ((i : Int) * offset) + j))
      else u.int (i * MAX_SYMMETRIES.toNat + j)
  let fcidims := store_doubles (read_dataset group_id "./fcidims") (safe_malloc_double u nrSecs)
  { nrSecs := nrSecs, irreps := irreps, fcidims := fcidims, dims := dims,
    totaldims := totaldims }

/-- `write_sparseblocks_to_disk`; `block` is `none` for a null pointer. -/
def write_sparseblocks_to_disk (id : H5Group) (block : Option sparseblocks)
    (nrblocks nmbr : Int) : H5Group :=
  match block with
  | none => id
  | some block =>
    let g := write_attribute H5Group.empty "nrBlocks" (some (.ints [nrblocks])) 1 .THDF5_INT
    if nrblocks = 0 then H5Gclose_created id (.block nmbr) g
    else
      let g := write_dataset g "./beginblock" (block.beginblock.map Buffer.ints)
        (hsize (wrapInt (nrblocks + 1))) .THDF5_INT
      let g := write_dataset g "./tel" (block.tel.map Buffer.doubles)
        (hsize (cell (block.beginblock.getD []) nrblocks)) .THDF5_EL_TYPE
      H5Gclose_created id (.block nmbr) g

/-- `read_sparseblocks_from_disk`: the blocks left in `*block`. -/
def read_sparseblocks_from_disk (u : Uninit) (id : Option H5Group) (block : sparseblocks)
    (nrblocks nmbr : Int) : Except Stop sparseblocks :=
  match H5Gopen id (.block nmbr) with
  | none => .ok block
  | some g =>
    let bloccount := store_int (read_attribute (some g) "nrBlocks") (u.int 0)
    if bloccount ≠ nrblocks then .error .assert_failure
    else if bloccount = 0 then .ok { beginblock := none, tel := none }
    else
      let beginblock := store_ints (read_dataset (some g) "./beginblock")
        (safe_malloc_int u (wrapInt (nrblocks + 1)))
      if cell beginblock nrblocks = 0 then .ok { beginblock := some beginblock, tel := none }
      else
        .ok { beginblock := some beginblock
              tel := some (store_doubles (read_dataset (some g) "./tel")
                (safe_malloc_double u (cell beginblock nrblocks))) }

/-- `write_siteTensor_to_disk`. -/
def write_siteTensor_to_disk (id : H5Group) (tens : siteTensor) (nmbr : Int) : H5Group :=
  let g := H5Group.empty
  let g := write_attribute g "nrsites" (some (.ints [tens.nrsites])) 1 .THDF5_INT
  let g := write_attribute g "sites" (some (.ints tens.sites)) (hsize tens.nrsites) .THDF5_INT
  let g := write_attribute g "nrblocks" (some (.ints [tens.nrblocks])) 1 .THDF5_INT
  let g := write_dataset g "./qnumbers" (some (.ints tens.qnumbers))
    (hsize (wrapInt (tens.nrblocks * tens.nrsites))) .THDF5_QN_TYPE
  let g := write_sparseblocks_to_disk g (some tens.blocks) tens.nrblocks 0
  H5Gclose_created id (.tensor nmbr) g

/-- `read_siteTensor_from_disk`: the tensor left in `*tens`. -/
def read_siteTensor_from_disk (u : Uninit) (id : Option H5Group) (tens : siteTensor)
    (nmbr : Int) : Except Stop siteTensor :=
  let group_id := H5Gopen id (.tensor nmbr)
  let nrsites := store_int (read_attribute group_id "nrsites") tens.nrsites
  let sites := store_ints (read_attribute group_id "sites") (safe_malloc_int u nrsites)
  let nrblocks := store_int (read_attribute group_id "nrblocks") tens.nrblocks
  let qnumbers := store_ints (read_dataset group_id "./qnumbers")
    (safe_malloc_int u (wrapInt (nrblocks * nrsites)))
  match read_sparseblocks_from_disk u group_id tens.blocks nrblocks 0 with
  | .error e => .error e
  | .ok blocks =>
    .ok { nrsites := nrsites, sites := sites, nrblocks := nrblocks, qnumbers := qnumbers,
          blocks := blocks }

/-- The two routines of `rOperators.c` that `io_to_disk.c` calls. -/
structure ROperatorsExternals where
  /-- The value of `rOperators_give_nr_of_couplings(rOp)`. -/
  rOperators_give_nr_of_couplings : rOperators → Int
  /-- The value of `rOperators_give_nr_blocks_for_operator(rOp, i)`. -/
  rOperators_give_nr_blocks_for_operator : rOperators → Int → Int

/-- The group left by the first `n` iterations of the loop over the
operators in `write_rOperator_to_disk`; the pointer `&rOp->operators[i]` of
an operator that is not there is taken as null. -/
def write_operators_loop (rext : ROperatorsExternals) (rOp : rOperators) :
    Nat → H5Group → H5Group
  | 0, g => g
  | n + 1, g =>
    let g := write_operators_loop rext rOp n g
    let nr_blocks := rext.rOperators_give_nr_blocks_for_operator rOp n
    write_sparseblocks_to_disk g (rOp.operators.get? n) nr_blocks n

/-- `write_rOperator_to_disk`: a set with `is_left` or `bond_of_operator`
equal to `-1` is not written. -/
def write_rOperator_to_disk (rext : ROperatorsExternals) (id : H5Group) (rOp : rOperators)
    (nmbr : Int) : H5Group :=
  if rOp.is_left = -1 ∨ rOp.bond_of_operator = -1 then id
  else
    let g := H5Group.empty
    let g := write_attribute g "bond_of_operator" (some (.ints [rOp.bond_of_operator])) 1
      .THDF5_INT
    let g := write_attribute g "is_left" (some (.ints [rOp.is_left])) 1 .THDF5_INT
    let g := write_attribute g "P_operator" (some (.ints [rOp.P_operator])) 1 .THDF5_INT
    let g := write_attribute g "nrhss" (some (.ints [rOp.nrhss])) 1 .THDF5_INT
    let g := write_dataset g "./begin_blocks_of_hss" (some (.ints rOp.begin_blocks_of_hss))
      (hsize (wrapInt (rOp.nrhss + 1))) .THDF5_INT
    let g := write_dataset g "./qnumbers" (some (.ints rOp.qnumbers))
      (hsize (wrapInt (cell rOp.begin_blocks_of_hss rOp.nrhss *
        rext.rOperators_give_nr_of_couplings rOp))) .THDF5_QN_TYPE
    let g := write_attribute g "nrops" (some (.ints [rOp.nrops])) 1 .THDF5_INT
    let g := write_dataset g "./hss_of_ops" (some (.ints rOp.hss_of_ops)) (hsize rOp.nrops)
      .THDF5_INT
    let g := write_operators_loop rext rOp rOp.nrops.toNat g
    H5Gclose_created id (.rOperator nmbr) g

/-- The operator set left by the first `n` iterations of the loop over the
operators in `read_rOperator_from_disk`. -/
def read_operators_loop (u : Uninit) (rext : ROperatorsExternals) (group_id : Option H5Group) :
    Nat → rOperators → Except Stop rOperators
  | 0, rOp => .ok rOp
  | n + 1, rOp =>
    match read_operators_loop u rext group_id n rOp with
    | .error e => .error e
    | .ok rOp =>
      let nr_blocks := rext.rOperators_give_nr_blocks_for_operator rOp n
      if nr_blocks = 0 then
        .ok { rOp with operators := rOp.operators.set n { beginblock := none, tel := none } }
      else
        match read_sparseblocks_from_disk u group_id
            (rOp.operators.getD n (u.sparseblocks n)) nr_blocks n with
        | .error e => .error e
        | .ok block => .ok { rOp with operators := rOp.operators.set n block }

/-- `read_rOperator_from_disk`: the operator set left in `*rOp`. The handle
of the group is not tested. -/
def read_rOperator_from_disk (u : Uninit) (rext : ROperatorsExternals) (id : Option H5Group)
    (rOp : rOperators) (nmbr : Int) : Except Stop rOperators :=
  let group_id := H5Gopen id (.rOperator nmbr)
  let rOp := { rOp with
    bond_of_operator := store_int (read_attribute group_id "bond_of_operator")
      rOp.bond_of_operator }
  let rOp := { rOp with is_left := store_int (read_attribute group_id "is_left") rOp.is_left }
  let rOp := { rOp with
    P_operator := store_int (read_attribute group_id "P_operator") rOp.P_operator }
  let rOp := { rOp with nrhss := store_int (read_attribute group_id "nrhss") rOp.nrhss }
  let rOp := { rOp with
    begin_blocks_of_hss := store_ints (read_dataset group_id "./begin_blocks_of_hss")
      (safe_malloc_int u (wrapInt (rOp.nrhss + 1))) }
  let rOp := { rOp with
    qnumbers := store_ints (read_dataset group_id "./qnumbers")
      (safe_malloc_int u (wrapInt (cell rOp.begin_blocks_of_hss rOp.nrhss *
        rext.rOperators_give_nr_of_couplings rOp))) }
  let rOp := { rOp with nrops := store_int (read_attribute group_id "nrops") rOp.nrops }
  let rOp := { rOp with
    hss_of_ops := store_ints (read_dataset group_id "./hss_of_ops")
      (safe_malloc_int u rOp.nrops) }
  let rOp := { rOp with operators := (List.range rOp.nrops.toNat).map u.sparseblocks }
  read_operators_loop u rext group_id rOp.nrops.toNat rOp

/-- The group left by the first `n` iterations of the loop of
`write_rOps_to_disk`. -/
def write_rOps_loop (rext : ROperatorsExternals) (rOps : Nat → rOperators) :
    Nat → H5Group → H5Group
  | 0, g => g
  | n + 1, g => write_rOperator_to_disk rext (write_rOps_loop rext rOps n g) (rOps n) n

/-- `write_rOps_to_disk`, with `netw.nr_bonds`. -/
def write_rOps_to_disk (rext : ROperatorsExternals) (nr_bonds : Int) (id : H5Group)
    (rOps : Nat → rOperators) : H5Group :=
  let g := write_attribute H5Group.empty "nrOps" (some (.ints [nr_bonds])) 1 .THDF5_INT
  let g := write_rOps_loop rext rOps nr_bonds.toNat g
  H5Gclose_created id (.fixed "/rOps") g

/-- The array left by the first `n` iterations of the loop of
`read_rOps_from_disk`. -/
def read_rOps_loop (u : Uninit) (rext : ROperatorsExternals) (group_id : Option H5Group) :
    Nat → (Nat → rOperators) → Except Stop (Nat → rOperators)
  | 0, rOps => .ok rOps
  | n + 1, rOps =>
    match read_rOps_loop u rext group_id n rOps with
    | .error e => .error e
    | .ok rOps =>
      match read_rOperator_from_disk u rext group_id (rOps n) n with
      | .error e => .error e
      | .ok rOp => .ok (Function.update rOps n rOp)

/-- `read_rOps_from_disk`, with `netw.nr_bonds`: the array left in `*rOps`,
which is allocated here. -/
def read_rOps_from_disk (u : Uninit) (rext : ROperatorsExternals) (nr_bonds : Int)
    (id : Option H5Group) : Except Stop (Nat → rOperators) :=
  let group_id := H5Gopen id (.fixed "/rOps")
  let nrbonds := store_int (read_attribute group_id "nrOps") (u.int 0)
  if nrbonds ≠ nr_bonds then .error .assert_failure
  else read_rOps_loop u rext group_id nr_bonds.toNat u.rOperators

/-- The group left by the first `n` iterations of the loop of
`write_T3NS_to_disk`. -/
def write_T3NS_loop (T3NS : Int → siteTensor) : Nat → H5Group → H5Group
  | 0, g => g
  | n + 1, g => write_siteTensor_to_disk (write_T3NS_loop T3NS n g) (T3NS n) n

/-- `write_T3NS_to_disk`, with `netw.sites`. -/
def write_T3NS_to_disk (sites : Int) (file_id : H5Group) (T3NS : Int → siteTensor) : H5Group :=
  let g := write_attribute H5Group.empty "nrSites" (some (.ints [sites])) 1 .THDF5_INT
  let g := write_T3NS_loop T3NS sites.toNat g
  H5Gclose_created file_id (.fixed "/T3NS") g

/-- The array left by the first `n` iterations of the loop of
`read_T3NS_from_disk`. -/
def read_T3NS_loop (u : Uninit) (group_id : Option H5Group) :
    Nat → (Int → siteTensor) → Except Stop (Int → siteTensor)
  | 0, T3NS => .ok T3NS
  | n + 1, T3NS =>
    match read_T3NS_loop u group_id n T3NS with
    | .error e => .error e
    | .ok T3NS =>
      match read_siteTensor_from_disk u group_id (T3NS n) n with
      | .error e => .error e
      | .ok tens => .ok (Function.update T3NS (n : Int) tens)

/-- `read_T3NS_from_disk`, with `netw.sites`: the array left in `*T3NS`,
which is allocated here. -/
def read_T3NS_from_disk (u : Uninit) (sites : Int) (file_id : Option H5Group) :
    Except Stop (Int → siteTensor) :=
  let group_id := H5Gopen file_id (.fixed "/T3NS")
  let nrsit := store_int (read_attribute group_id "nrSites") (u.int 0)
  if nrsit ≠ sites then .error .assert_failure
  else read_T3NS_loop u group_id sites.toNat u.siteTensor

/-- The first `n` cells of an `int` array that is given as a map. -/
def map_cells (a : Nat → Int) (n : Nat) : List Int := (List.range n).map a

/-- The first `n` cells of `netw.bonds`, two for every bond. -/
def bonds_cells (bonds : Nat → Int × Int) (n : Nat) : List Int :=
  (List.range n).map fun k => if k % 2 = 0 then (bonds (k / 2)).1 else (bonds (k / 2)).2

/-- `write_network_to_disk`. -/
def write_network_to_disk {S R T : Type} (id : H5Group) (s : GlobalState S R T) : H5Group :=
  let g := H5Group.empty
  let g := write_attribute g "nr_bonds" (some (.ints [s.nr_bonds])) 1 .THDF5_INT
  let g := write_dataset g "./bonds"
    (some (.ints (bonds_cells s.bonds (hsize (wrapInt (s.nr_bonds * 2))))))
    (hsize (wrapInt (s.nr_bonds * 2))) .THDF5_INT
  let g := write_attribute g "psites" (some (.ints [s.psites])) 1 .THDF5_INT
  let g := write_attribute g "sites" (some (.ints [s.sites])) 1 .THDF5_INT
  let g := write_dataset g "./sitetoorb" (some (.ints s.sitetoorb)) (hsize s.sites) .THDF5_INT
  let g := write_attribute g "sweeplength" (some (.ints [s.sweeplength])) 1 .THDF5_INT
  let g := write_dataset g "./sweep" (some (.ints s.sweep)) (hsize s.sweeplength) .THDF5_INT
  H5Gclose_created id (.fixed "/network") g

/-- `read_network_from_disk`: the fields of `netw` it fills. What
`create_nr_left_psites` and `create_order_psites` derive from them is kept
in fields of `netw` that are not part of the state here. -/
def read_network_from_disk {S R T : Type} (u : Uninit) (id : Option H5Group)
    (s : GlobalState S R T) : GlobalState S R T :=
  let group_id := H5Gopen id (.fixed "/network")
  let nr_bonds := store_int (read_attribute group_id "nr_bonds") s.nr_bonds
  let cells := store_ints (read_dataset group_id "./bonds") (safe_malloc_int u (2 * nr_bonds))
  let psites := store_int (read_attribute group_id "psites") s.psites
  let sites := store_int (read_attribute group_id "sites") s.sites
  let sitetoorb := store_ints (read_dataset group_id "./sitetoorb") (safe_malloc_int u sites)
  let sweeplength := store_int (read_attribute group_id "sweeplength") s.sweeplength
  let sweep := store_ints (read_dataset group_id "./sweep") (safe_malloc_int u sweeplength)
  { s with
    nr_bonds := nr_bonds
    bonds := fun b => (cells.getD (2 * b) (u.int (2 * b)), cells.getD (2 * b + 1) (u.int (2 * b + 1)))
    psites := psites
    sites := sites
    sitetoorb := sitetoorb
    sweeplength := sweeplength
    sweep := sweep }

/-- The group left by the first `n` iterations of a loop of
`write_bookkeeper_to_disk` over sector lists of one kind. -/
def write_symsecs_loop (MAX_SYMMETRIES : Int) (symsecs : Nat → symsecs) (kind : Char) :
    Nat → H5Group → H5Group
  | 0, g => g
  | n + 1, g =>
    write_symsec_to_disk MAX_SYMMETRIES (write_symsecs_loop MAX_SYMMETRIES symsecs kind n g)
      (symsecs n) n kind

/-- `write_bookkeeper_to_disk`, with the build's `MAX_SYMMETRIES`. -/
def write_bookkeeper_to_disk {R T : Type} (MAX_SYMMETRIES : Int) (file_id : H5Group)
    (s : GlobalState symsecs R T) : H5Group :=
  let g := H5Group.empty
  let g := write_attribute g "nrSyms" (some (.ints [s.nrSyms])) 1 .THDF5_INT
  let g := write_attribute g "Max_symmetries" (some (.ints [MAX_SYMMETRIES])) 1 .THDF5_INT
  let g := write_attribute g "sgs" (some (.ints (map_cells s.sgs (hsize s.nrSyms))))
    (hsize s.nrSyms) .THDF5_INT
  let g := write_attribute g "target_state"
    (some (.ints (map_cells s.target_state (hsize s.nrSyms)))) (hsize s.nrSyms) .THDF5_INT
  let g := write_attribute g "nr_bonds" (some (.ints [s.bookie_nr_bonds])) 1 .THDF5_INT
  let g := write_symsecs_loop MAX_SYMMETRIES s.v_symsecs 'v' s.bookie_nr_bonds.toNat g
  let g := write_attribute g "psites" (some (.ints [s.bookie_psites])) 1 .THDF5_INT
  let g := write_symsecs_loop MAX_SYMMETRIES s.p_symsecs 'p' s.bookie_psites.toNat g
  H5Gclose_created file_id (.fixed "/bookkeeper") g

/-- `read_bookkeeper_from_disk`: the state it leaves and the values it
stores in `sgs`, `target_state` and `*nrSyms`; the program exits when the
snapshot declares more than `MAX_SYMMETRIES` groups. -/
def read_bookkeeper_from_disk {R T : Type} (u : Uninit) (MAX_SYMMETRIES : Int)
    (file_id : Option H5Group) (s : GlobalState symsecs R T) (sgs target_state : Nat → Int)
    (nrSyms : Int) :
    Except Stop (GlobalState symsecs R T × (Nat → Int) × (Nat → Int) × Int) :=
  let group_id := H5Gopen file_id (.fixed "/bookkeeper")
  let nrSyms := store_int (read_attribute group_id "nrSyms") nrSyms
  if nrSyms > MAX_SYMMETRIES then .error .exit_failure
  else
    let offset := store_int (read_attribute group_id "Max_symmetries") (u.int 0)
    let sgs := store_map (read_attribute group_id "sgs") sgs
    let target_state := store_map (read_attribute group_id "target_state") target_state
    let nr_bonds := store_int (read_attribute group_id "nr_bonds") s.bookie_nr_bonds
    let v_symsecs := fun (i : Nat) =>
      if (i : Int) < nr_bonds then
        read_symsec_from_disk u MAX_SYMMETRIES group_id (u.symsecs i) i offset nrSyms 'v'
      else u.symsecs i
    let psites := store_int (read_attribute group_id "psites") s.bookie_psites
    let p_symsecs := fun (i : Nat) =>
      if (i : Int) < psites then
        read_symsec_from_disk u MAX_SYMMETRIES group_id (u.symsecs i) i offset nrSyms 'p'
      else u.symsecs i
    .ok ({ s with
            bookie_nr_bonds := nr_bonds
            v_symsecs := v_symsecs
            bookie_psites := psites
            p_symsecs := p_symsecs }, sgs, target_state, nrSyms)

/-- A call that the reading of the bookkeeper makes to the HDF5 library or
the allocator, with the name it asks for or the count it allocates, and the
`fprintf` of a message to `stderr`. The `sprintf` that makes the name of a
group is part of `H5Gopen` here, and `exit` is the outcome `exit_failure`. -/
inductive Call where
  | H5Gopen (name : H5Name)
  | read_attribute (atrname : String)
  | read_dataset (datname : String)
  | safe_malloc (count : Int)
  | safe_free
  | H5Gclose
  | fprintf
deriving DecidableEq

/-- The calls of `read_symsec_from_disk`, one after the other. -/
def read_symsec_from_disk_calls (id : Option H5Group) (ssec : symsecs) (nmbr : Int)
    (offset : Int) (kind : Char) : List Call :=
  let group_id := H5Gopen id (.symsec kind nmbr)
  let calls := [Call.H5Gopen (.symsec kind nmbr)]
  let nrSecs := store_int (read_attribute group_id "nrSecs") ssec.nrSecs
  let calls := calls ++ [.read_attribute "nrSecs"]
  let calls := calls ++ [.read_attribute "totaldims"]
  let calls := calls ++ [.safe_malloc nrSecs]
  let calls := calls ++ [.read_dataset "./dims"]
  let calls := calls ++ [.safe_malloc (wrapInt (nrSecs * offset))]
  let calls := calls ++ [.safe_malloc nrSecs]
  let calls := calls ++ [.read_dataset "./irreps"]
  let calls := calls ++ [.safe_free]
  let calls := calls ++ [.safe_malloc nrSecs]
  let calls := calls ++ [.read_dataset "./fcidims"]
  calls ++ [.H5Gclose]

/-- The calls of the first `n` rounds of a loop
`for (i = 0; i < n; ++i) read_symsec_from_disk(group_id, &ssecs[i], i, offset, *nrSyms, kind)`. -/
def read_symsecs_loop_calls (group_id : Option H5Group) (ssecs : Nat → symsecs) (offset : Int)
    (kind : Char) : Nat → List Call
  | 0 => []
  | n + 1 =>
    read_symsecs_loop_calls group_id ssecs offset kind n ++
      read_symsec_from_disk_calls group_id (ssecs n) n offset kind

/-- `read_bookkeeper_from_disk` once more, statement by statement, with the
calls it has made, in their order, beside what it leaves. -/
def read_bookkeeper_from_disk_calls {R T : Type} (u : Uninit) (MAX_SYMMETRIES : Int)
    (file_id : Option H5Group) (s : GlobalState symsecs R T) (sgs target_state : Nat → Int)
    (nrSyms : Int) :
    List Call × Except Stop (GlobalState symsecs R T × (Nat → Int) × (Nat → Int) × Int) :=
  let group_id := H5Gopen file_id (.fixed "/bookkeeper")
  let calls := [Call.H5Gopen (.fixed "/bookkeeper")]
  let nrSyms := store_int (read_attribute group_id "nrSyms") nrSyms
  let calls := calls ++ [.read_attribute "nrSyms"]
  if nrSyms > MAX_SYMMETRIES then (calls ++ [.fprintf], .error .exit_failure)
  else
    let offset := store_int (read_attribute group_id "Max_symmetries") (u.int 0)
    let calls := calls ++ [.read_attribute "Max_symmetries"]
    let sgs := store_map (read_attribute group_id "sgs") sgs
    let calls := calls ++ [.read_attribute "sgs"]
    let target_state := store_map (read_attribute group_id "target_state") target_state
    let calls := calls ++ [.read_attribute "target_state"]
    let nr_bonds := store_int (read_attribute group_id "nr_bonds") s.bookie_nr_bonds
    let calls := calls ++ [.read_attribute "nr_bonds"]
    let calls := calls ++ [.safe_malloc nr_bonds]
    let v_symsecs := fun (i : Nat) =>
      if (i : Int) < nr_bonds then
        read_symsec_from_disk u MAX_SYMMETRIES group_id (u.symsecs i) i offset nrSyms 'v'
      else u.symsecs i
    let calls := calls ++ read_symsecs_loop_calls group_id u.symsecs offset 'v' nr_bonds.toNat
    let psites := store_int (read_attribute group_id "psites") s.bookie_psites
    let calls := calls ++ [.read_attribute "psites"]
    let calls := calls ++ [.safe_malloc psites]
    let p_symsecs := fun (i : Nat) =>
      if (i : Int) < psites then
        read_symsec_from_disk u MAX_SYMMETRIES group_id (u.symsecs i) i offset nrSyms 'p'
      else u.symsecs i
    let calls := calls ++ read_symsecs_loop_calls group_id u.symsecs offset 'p' psites.toNat
    (calls ++ [.H5Gclose],
      .ok ({ s with
            bookie_nr_bonds := nr_bonds
            v_symsecs := v_symsecs
            bookie_psites := psites
            p_symsecs := p_symsecs }, sgs, target_state, nrSyms))

/-- The state after the lines of `read_from_disk` that take the symmetries
of the snapshot when `bookie.nrSyms == -1`. -/
def adopt_symmetries {S R T : Type} (s : GlobalState S R T) (sgs target_state : Nat → Int)
    (nrSyms : Int) : GlobalState S R T :=
  if s.nrSyms = -1 then
    { s with
      nrSyms := nrSyms
      sgs := fun i => if (i : Int) < nrSyms then sgs i else s.sgs i
      target_state := fun i => if (i : Int) < nrSyms then target_state i else s.target_state i }
  else s

/-- `read_from_disk`: the return value and the state it leaves; `file` is
what is found under `filename`, `none` when there is no such file. The
arrays `sgs`, `target_state` and `nrSyms` are declared and not initialised.
`read_hamiltonian_from_disk` fills globals that are not part of the state
here. -/
def read_from_disk (u : Uninit) (MAX_SYMMETRIES : Int)
    (ext : Externals symsecs rOperators siteTensor) (rext : ROperatorsExternals)
    (file : Option H5Group) (s : GlobalState symsecs rOperators siteTensor) :
    Except Stop (Int × GlobalState symsecs rOperators siteTensor) :=
  match file with
  | none => .ok (1, s)
  | some f =>
    let file_id := some f
    let s := read_network_from_disk u file_id s
    match read_bookkeeper_from_disk u MAX_SYMMETRIES file_id s u.int u.int (u.int 0) with
    | .error e => .error e
    | .ok (s, sgs, target_state, nrSyms) =>
      let s := adopt_symmetries s sgs target_state nrSyms
      match read_T3NS_from_disk u s.sites file_id with
      | .error e => .error e
      | .ok T3NS =>
        let s := { s with T3NS := T3NS }
        match read_rOps_from_disk u rext s.nr_bonds file_id with
        | .error e => .error e
        | .ok ops =>
          let s := { s with ops := ops }
          match change_targetstate ext s sgs target_state nrSyms with
          | none => .error .assert_failure
          | some (r, s) => if r ≠ 0 then .ok (1, s) else .ok (0, s)

/-- The indices at which the loop of `change_targetstate` calls
`change_seniority`, from index `i` with `fuel = nrSyms - i` iterations left. -/
def seniority_calls {S R T : Type} (ext : Externals S R T) (sgs target_state : Nat → Int) :
    Nat → Nat → GlobalState S R T → List Nat
  | 0, _, _ => []
  | fuel + 1, i, s =>
    if sgs i ≠ s.sgs i then []
    else if target_state i ≠ s.target_state i then
      if sgs i = ext.SENIORITY then
        i :: (match change_seniority ext s i (target_state i) with
          | none => []
          | some (r, s') =>
            if r = 0 then seniority_calls ext sgs target_state fuel (i + 1) s' else [])
      else []
    else seniority_calls ext sgs target_state fuel (i + 1) s

/-- The end of `make_h5f_name`, from a buffer of `size` characters that
holds the text `res` of length `len`:
`strncat(hdf5_resulting, hdf5file, size - len); hdf5_resulting[size - 1] = '\0';`.
`strncat` writes its terminating NUL outside the buffer when `hdf5file` has
`size - len` characters or more. -/
def h5f_name_strncat (res : List Char) (len : Int) (hdf5file : List Char) (size : Int) :
    Option (List Char) :=
  if (hdf5file.length : Int) ≥ size - len then none
  else some ((res ++ hdf5file.take (size - len).toNat).take (size - 1).toNat)

/-- The second test of `make_h5f_name` and what follows it: a `/` at the end
of the text is removed when `hdf5file` starts with one. -/
def h5f_name_remove (res : List Char) (len : Int) (hdf5file : List Char) (size : Int) :
    Option (List Char) :=
  if res.getLast? = some '/' ∧ hdf5file.head? = some '/' then
    h5f_name_strncat res.dropLast (len - 1) hdf5file size
  else h5f_name_strncat res len hdf5file size

/-- `make_h5f_name`: the text left in `hdf5_resulting`, a buffer of `size`
characters; `none` when the function reads or writes outside the buffer. -/
def make_h5f_name (hdf5_loc hdf5file : List Char) (size : Int) : Option (List Char) :=
  if size < 1 then none
  else
    let res := hdf5_loc.take (size - 1).toNat
    let len : Int := res.length
    if len = 0 then none
    else if res.getLast? ≠ some '/' ∧ hdf5file.head? ≠ some '/' then
      if len + 1 ≥ size then none
      else h5f_name_remove (res ++ ['/']) (len + 1) hdf5file size
    else h5f_name_remove res len hdf5file size

/-- The name as the specification words it: the location without one
trailing `/`, a `/`, the file name without one leading `/`. -/
def joined_name (loc file : List Char) : List Char :=
  (if loc.getLast? = some '/' then loc.dropLast else loc) ++ ['/'] ++
    (if file.head? = some '/' then file.tail else file)

/-! ## The layout of what is stored -/

/-- The layout of the blocks of a tensor or operator that has `nrblocks`
blocks: null buffers when there is no block; else `beginblock` has
`nrblocks + 1` entries and starts at `0`, and `tel` has
`beginblock[nrblocks]` elements. The counts are values of an `int`. -/
def sparseblocks_layout (block : sparseblocks) (nrblocks : Int) : Prop :=
  isInt (nrblocks + 1) ∧
    if nrblocks = 0 then block.beginblock = none ∧ block.tel = none
    else
      block.beginblock ≠ none ∧
        ((block.beginblock.getD []).length : Int) = nrblocks + 1 ∧
        cell (block.beginblock.getD []) 0 = 0 ∧
        isInt (cell (block.beginblock.getD []) nrblocks) ∧
        ((block.tel.getD []).length : Int) = cell (block.beginblock.getD []) nrblocks

instance (block : sparseblocks) (nrblocks : Int) :
    Decidable (sparseblocks_layout block nrblocks) := by
  unfold sparseblocks_layout; exact inferInstance

/-- The layout of a site tensor: `sites` has `nrsites` entries, `qnumbers`
has `nrblocks * nrsites` entries, and the blocks are laid out for `nrblocks`
blocks. The counts are values of an `int`. -/
def siteTensor_layout (tens : siteTensor) : Prop :=
  isInt tens.nrsites ∧ (tens.sites.length : Int) = tens.nrsites ∧
    isInt (tens.nrblocks * tens.nrsites) ∧
    (tens.qnumbers.length : Int) = tens.nrblocks * tens.nrsites ∧
    sparseblocks_layout tens.blocks tens.nrblocks

instance (tens : siteTensor) : Decidable (siteTensor_layout tens) := by
  unfold siteTensor_layout; exact inferInstance

/-- The layout of a sector list written by a build with `MAX_SYMMETRIES`
slots: `dims`, `fcidims` and `irreps` have `nrSecs` entries, and every row of
`irreps` has `MAX_SYMMETRIES` labels. The counts are values of an `int`. -/
def symsecs_layout (MAX_SYMMETRIES : Int) (ssec : symsecs) : Prop :=
  isInt ssec.nrSecs ∧ isInt (ssec.nrSecs * MAX_SYMMETRIES) ∧ 0 ≤ MAX_SYMMETRIES ∧
    (ssec.dims.length : Int) = ssec.nrSecs ∧ (ssec.fcidims.length : Int) = ssec.nrSecs ∧
    (ssec.irreps.length : Int) = ssec.nrSecs ∧
    ∀ row ∈ ssec.irreps, row.length = MAX_SYMMETRIES.toNat

instance (MAX_SYMMETRIES : Int) (ssec : symsecs) :
    Decidable (symsecs_layout MAX_SYMMETRIES ssec) := by
  unfold symsecs_layout; exact inferInstance

/-- `write_to_disk`: the content of the file it creates, for a location
that is not null; the name of the file is what `make_h5f_name` gives for
`T3NScalc.h5`. `write_hamiltonian_to_disk` adds a group of its own, which
none of the readers here opens. -/
def write_to_disk (MAX_SYMMETRIES : Int) (rext : ROperatorsExternals)
    (s : GlobalState symsecs rOperators siteTensor) : H5Group :=
  let file_id := H5Group.empty
  let file_id := write_network_to_disk file_id s
  let file_id := write_bookkeeper_to_disk MAX_SYMMETRIES file_id s
  let file_id := write_T3NS_to_disk s.sites file_id s.T3NS
  write_rOps_to_disk rext s.nr_bonds file_id s.ops

/-! ## A small snapshot for examples -/

/-- Memory that holds zeros where nothing was written yet, and an operator
set left over from earlier use. -/
def exUninit : Uninit :=
  { int := fun _ => 0
    double := fun _ => 0
    symsecs := fun _ => { nrSecs := 0, irreps := [], fcidims := [], dims := [], totaldims := 0 }
    sparseblocks := fun _ => { beginblock := none, tel := none }
    siteTensor := fun _ =>
      { nrsites := 0, sites := [], nrblocks := 0, qnumbers := [],
        blocks := { beginblock := none, tel := none } }
    rOperators := fun _ =>
      { bond_of_operator := 7, is_left := 1, P_operator := 0, nrhss := 0,
        begin_blocks_of_hss := [], qnumbers := [], nrops := 0, hss_of_ops := [],
        operators := [] } }

/-- A tensor of three sites with two blocks, of two and one element. -/
def exTensor : siteTensor :=
  { nrsites := 3, sites := [0, 1, 2], nrblocks := 2, qnumbers := [1, 2, 3, 4, 5, 6],
    blocks := { beginblock := some [0, 2, 3], tel := some [10, 11, 12] } }

/-- A list of two sectors of a build with three symmetry slots. -/
def exSymsecs : symsecs :=
  { nrSecs := 2, irreps := [[1, 2, 0], [3, 4, 0]], fcidims := [5, 6], dims := [7, 8],
    totaldims := 15 }

/-- An operator set that is not attached: bond and direction are `-1`. -/
def exNullOperators : rOperators :=
  { bond_of_operator := -1, is_left := -1, P_operator := 0, nrhss := 0,
    begin_blocks_of_hss := [], qnumbers := [], nrops := 0, hss_of_ops := [], operators := [] }

/-- Modelled from the spec: `rOperators_give_nr_blocks_for_operator` is
missing from the sources; the blocks of an operator are those of its
Hamiltonian symmetry sector,
`begin_blocks_of_hss[hss + 1] - begin_blocks_of_hss[hss]`. In the examples
every set has one coupling. -/
def exROpsExt : ROperatorsExternals :=
  { rOperators_give_nr_of_couplings := fun _ => 1
    rOperators_give_nr_blocks_for_operator := fun rOp i =>
      cell rOp.begin_blocks_of_hss (cell rOp.hss_of_ops i + 1) -
        cell rOp.begin_blocks_of_hss (cell rOp.hss_of_ops i) }

/-- Externals for the examples on tensors and operator sets as they are
stored: the vacuum set of a bond has one sector and no operator, and the two
tensor routines leave the tensor as it is. -/
def exDiskExt : Externals symsecs rOperators siteTensor :=
  { SENIORITY := 11
    init_targetstate := exInitTargetstate
    init_vacuum_rOperators := fun _ bond is_left =>
      { bond_of_operator := bond, is_left := is_left, P_operator := 0, nrhss := 1,
        begin_blocks_of_hss := [0, 0], qnumbers := [], nrops := 0, hss_of_ops := [],
        operators := [] }
    change_sectors_tensor := fun _ t _ _ => t
    norm_tensor := fun _ t => t }

/-- The state of a run on the network of `exState`, with two symmetry groups
and target state `(2, 3)`; the operator set of bond `1` is attached, that of
bond `0` is not. -/
def exSnapshotState : GlobalState symsecs rOperators siteTensor :=
  { nrSyms := 2
    sgs := fun i => if i = 0 then 11 else 1
    target_state := fun i => if i = 0 then 2 else 3
    v_symsecs := fun _ =>
      { nrSecs := 1, irreps := [[2, 3]], fcidims := [4607182418800017408], dims := [1],
        totaldims := 1 }
    nr_bonds := 2
    bonds := fun b => if b = 0 then (1, -1) else (0, 1)
    T3NS := fun _ => exTensor
    ops := fun b =>
      if b = 0 then exNullOperators
      else
        { bond_of_operator := 1, is_left := 1, P_operator := 0, nrhss := 1,
          begin_blocks_of_hss := [0, 0], qnumbers := [], nrops := 0, hss_of_ops := [],
          operators := [] }
    bookie_nr_bonds := 2
    bookie_psites := 2
    p_symsecs := fun _ =>
      { nrSecs := 1, irreps := [[0, 0]], fcidims := [4607182418800017408], dims := [1],
        totaldims := 1 }
    psites := 2
    sites := 2
    sitetoorb := [0, 1]
    sweeplength := 2
    sweep := [0, 1] }

/-- The snapshot that a build with two symmetry slots writes of
`exSnapshotState`. -/
def exSnapshot : H5Group := write_to_disk 2 exROpsExt exSnapshotState

/-- The state of a program that has no symmetries configured yet:
`bookie.nrSyms` is `-1`. -/
def exFreshState : GlobalState symsecs rOperators siteTensor :=
  { exSnapshotState with
    nrSyms := -1
    sgs := fun _ => 0
    target_state := fun _ => 0 }

/-! ## Lemmas on machine integers and decimal text -/

theorem wrapInt_of_isInt {x : Int} (h : isInt x) : wrapInt x = x := by
  unfold isInt INT_MIN INT_MAX at h
  unfold wrapInt
  omega

theorem isInt_wrapInt (x : Int) : isInt (wrapInt x) := by
  unfold isInt INT_MIN INT_MAX wrapInt
  omega

theorem wrapInt_add_wrapInt (a x : Int) : wrapInt (a + wrapInt x) = wrapInt (a + x) := by
  unfold wrapInt
  omega

theorem wrapInt_wrapInt_add (a x : Int) : wrapInt (wrapInt x + a) = wrapInt (x + a) := by
  unfold wrapInt
  omega

theorem digitChar_isdigit {d : Nat} (h : d < 10) : isdigit (digitChar d) = true := by
  interval_cases d <;> decide

theorem digitChar_toNat {d : Nat} (h : d < 10) : (digitChar d).toNat - 48 = d := by
  interval_cases d <;> decide

theorem atoi_digits_map (ds : List Nat) (h : ∀ d ∈ ds, d < 10) (acc : Nat) :
    atoi_digits (ds.map digitChar) acc = ds.foldl (fun a d => a * 10 + d) acc := by
  induction ds generalizing acc with
  | nil => rfl
  | cons d ds ih =>
    have hd : d < 10 := h d (List.mem_cons_self d ds)
    have hds : ∀ e ∈ ds, e < 10 := fun e he => h e (List.mem_cons_of_mem d he)
    simp only [List.map_cons, atoi_digits, digitChar_isdigit hd, digitChar_toNat hd,
      if_true, List.foldl_cons]
    exact ih hds _

theorem foldl_reverse_ofDigits (L : List Nat) :
    L.reverse.foldl (fun a d => a * 10 + d) 0 = Nat.ofDigits 10 L := by
  rw [List.foldl_reverse]
  induction L with
  | nil => rfl
  | cons d L ih =>
    rw [List.foldr_cons, ih, Nat.ofDigits_cons]
    omega

theorem atoi_digits_natToDec (n : Nat) : atoi_digits (natToDec n) 0 = n := by
  unfold natToDec
  split
  · next h => subst h; decide
  · rw [atoi_digits_map _ (by
      intro d hd
      exact Nat.digits_lt_base (by norm_num) (List.mem_reverse.mp hd)),
      foldl_reverse_ofDigits, Nat.ofDigits_digits]

theorem digitChar_head_props {d : Nat} (h0 : d ≠ 0) (h : d < 10) :
    isspace (digitChar d) = false ∧ digitChar d ≠ '-' ∧ digitChar d ≠ '+' ∧
      digitChar d ≠ '0' := by
  interval_cases d <;> first | exact absurd rfl h0 | decide

theorem natToDec_cons {n : Nat} (hn : n ≠ 0) :
    ∃ d cs, natToDec n = digitChar d :: cs ∧ d ≠ 0 ∧ d < 10 := by
  have hne : Nat.digits 10 n ≠ [] := Nat.digits_ne_nil_iff_ne_zero.mpr hn
  have hlast := Nat.getLast_digit_ne_zero 10 hn
  have hmem : (Nat.digits 10 n).getLast hne ∈ Nat.digits 10 n := List.getLast_mem hne
  refine ⟨(Nat.digits 10 n).getLast hne, ((Nat.digits 10 n).dropLast).reverse.map digitChar,
    ?_, hlast, Nat.digits_lt_base (by norm_num) hmem⟩
  unfold natToDec
  rw [if_neg hn]
  conv_lhs => rw [← List.dropLast_append_getLast hne]
  simp

theorem natToDec_length {n : Nat} (hn : n ≤ 2147483648) : (natToDec n).length ≤ 10 := by
  unfold natToDec
  split
  · simp
  · rw [List.length_map, List.length_reverse]
    have h := Nat.le_digits_len_le 10 n 2147483648 hn
    have h10 : (Nat.digits 10 2147483648).length = 10 := by norm_num
    omega

theorem formatInt_length {l : Int} (h : isInt l) : (formatInt l).length ≤ 11 := by
  unfold isInt INT_MIN INT_MAX at h
  have hn : l.natAbs ≤ 2147483648 := by omega
  have := natToDec_length hn
  unfold formatInt
  split <;> simp <;> omega

theorem strtol_value_of_isInt {x : Int} (h : isInt x) : strtol_value x = x := by
  unfold isInt INT_MIN INT_MAX at h
  unfold strtol_value LONG_MIN LONG_MAX
  rw [if_neg (by omega), if_neg (by omega)]

theorem atoi_of_isInt {buffer : List Char}
    (h : isInt (atoi_signed (buffer.dropWhile isspace))) :
    atoi buffer = atoi_signed (buffer.dropWhile isspace) := by
  unfold atoi
  rw [strtol_value_of_isInt h, wrapInt_of_isInt h]

theorem atoi_signed_formatInt (l : Int) :
    atoi_signed ((formatInt l).dropWhile isspace) = l := by
  unfold formatInt
  split
  · next hneg =>
    have hsp : isspace '-' = false := by decide
    rw [List.dropWhile_cons_of_neg (by simp [hsp])]
    simp only [atoi_signed, if_true, atoi_digits_natToDec]
    omega
  · next hpos =>
    by_cases h0 : l.natAbs = 0
    · have hl : l = 0 := by omega
      subst hl
      decide
    · obtain ⟨d, cs, hcs, hd0, hd⟩ := natToDec_cons h0
      obtain ⟨hsp, hm, hp, _⟩ := digitChar_head_props hd0 hd
      have hval := atoi_digits_natToDec l.natAbs
      rw [hcs] at hval ⊢
      rw [List.dropWhile_cons_of_neg (by simp [hsp])]
      simp only [atoi_signed, if_neg hm, if_neg hp, hval]
      omega

theorem formatInt_head_zero (l : Int) : (formatInt l).head? = some '0' ↔ l = 0 := by
  unfold formatInt
  split
  · next hneg =>
    simp only [List.head?_cons, Option.some.injEq]
    constructor
    · intro h; exact absurd h (by decide)
    · intro h; omega
  · next hpos =>
    by_cases h0 : l.natAbs = 0
    · have hl : l = 0 := by omega
      subst hl
      simp [natToDec]
    · obtain ⟨d, cs, hcs, hd0, hd⟩ := natToDec_cons h0
      obtain ⟨_, _, _, hz⟩ := digitChar_head_props hd0 hd
      rw [hcs]
      simp only [List.head?_cons, Option.some.injEq]
      constructor
      · intro h; exact absurd h hz
      · intro h; omega

theorem U1_which_irrep_formatInt {l : Int} (h : isInt l) :
    U1_which_irrep (formatInt l) = (if 0 ≤ l then 1 else 0, l) := by
  have hat : atoi (formatInt l) = l := by
    unfold atoi
    rw [atoi_signed_formatInt, strtol_value_of_isInt h, wrapInt_of_isInt h]
  unfold U1_which_irrep
  simp only [hat]
  by_cases h0 : l = 0
  · subst h0
    decide
  · have hh : ¬ (formatInt l).head? = some '0' := fun hc => h0 ((formatInt_head_zero l).mp hc)
    simp [h0, hh]

theorem U1_get_irrstring_eq {MY_STRING_LEN : Nat} (hL : 12 ≤ MY_STRING_LEN) {l : Int}
    (h : isInt l) : U1_get_irrstring MY_STRING_LEN l = formatInt l := by
  unfold U1_get_irrstring
  apply List.take_of_length_le
  have := formatInt_length h
  omega

/-! ## Lemmas on the migration -/

theorem change_seniority_code {S R T : Type} (ext : Externals S R T) (s : GlobalState S R T)
    (i : Nat) (old : Int) :
    (change_seniority ext s i old).map Prod.fst = seniority_code s i old := by
  simp only [change_seniority, seniority_code]
  split_ifs <;> rfl

theorem change_seniority_sameConfig {S R T : Type} (ext : Externals S R T)
    {s s' : GlobalState S R T} {i : Nat} {old r : Int}
    (h : change_seniority ext s i old = some (r, s')) : sameConfig s s' := by
  simp only [change_seniority] at h
  split_ifs at h <;> simp only [Option.some.injEq, Prod.mk.injEq, reduceCtorEq] at h <;>
    (obtain ⟨_, rfl⟩ := h; exact ⟨rfl, rfl, rfl, rfl⟩)

theorem sameConfig_refl {S R T : Type} (s : GlobalState S R T) : sameConfig s s :=
  ⟨rfl, rfl, rfl, rfl⟩

theorem sameConfig_trans {S R T : Type} {a b c : GlobalState S R T}
    (h1 : sameConfig a b) (h2 : sameConfig b c) : sameConfig a c := by
  obtain ⟨p1, p2, p3, p4⟩ := h1
  obtain ⟨q1, q2, q3, q4⟩ := h2
  exact ⟨q1.trans p1, q2.trans p2, q3.trans p3, q4.trans p4⟩

theorem seniority_code_congr {S R T : Type} {s s' : GlobalState S R T}
    (h : sameConfig s s') (i : Nat) (old : Int) :
    seniority_code s' i old = seniority_code s i old := by
  obtain ⟨_, h2, h3, h4⟩ := h
  unfold seniority_code find_endbond
  rw [h2, h3, h4]

theorem hasOpenBond_congr {S R T : Type} {s s' : GlobalState S R T}
    (h : sameConfig s s') : hasOpenBond s' ↔ hasOpenBond s := by
  obtain ⟨_, _, h3, h4⟩ := h
  unfold hasOpenBond find_endbond
  rw [h3, h4]

theorem indexAccepted_congr {S R T : Type} (ext : Externals S R T)
    {s s' : GlobalState S R T} (h : sameConfig s s') (sgs ts : Nat → Int) (i : Nat) :
    indexAccepted ext s' sgs ts i ↔ indexAccepted ext s sgs ts i := by
  unfold indexAccepted
  rw [change_seniority_code, change_seniority_code, seniority_code_congr h, h.1, h.2.1]

theorem change_targetstate_loop_accepts {S R T : Type} (ext : Externals S R T)
    (sgs ts : Nat → Int) (fuel : Nat) :
    ∀ (i : Nat) (s : GlobalState S R T),
      (∃ s', change_targetstate_loop ext sgs ts fuel i s = some (0, s')) ↔
        ∀ j, i ≤ j → j < i + fuel → indexAccepted ext s sgs ts j := by
  induction fuel with
  | zero =>
    intro i s
    constructor
    · intro _ j h1 h2; omega
    · intro _; exact ⟨s, rfl⟩
  | succ fuel ih =>
    intro i s
    have hsplit : ∀ (P : Nat → Prop),
        (∀ j, i ≤ j → j < i + (fuel + 1) → P j) ↔
          (P i ∧ ∀ j, i + 1 ≤ j → j < i + 1 + fuel → P j) := by
      intro P
      constructor
      · intro h
        exact ⟨h i (le_refl i) (by omega), fun j h1 h2 => h j (by omega) (by omega)⟩
      · rintro ⟨h0, h⟩ j h1 h2
        rcases Nat.eq_or_lt_of_le h1 with rfl | hlt
        · exact h0
        · exact h j hlt (by omega)
    rw [hsplit]
    unfold change_targetstate_loop
    by_cases htag : sgs i = s.sgs i
    · rw [if_neg (not_not.mpr htag)]
      by_cases hlab : ts i = s.target_state i
      · rw [if_neg (not_not.mpr hlab), ih]
        constructor
        · intro h; exact ⟨⟨htag, Or.inl hlab⟩, h⟩
        · intro h; exact h.2
      · rw [if_pos hlab]
        by_cases hsen : sgs i = ext.SENIORITY
        · rw [if_pos hsen]
          cases hcs : change_seniority ext s i (ts i) with
          | none =>
            simp only [reduceCtorEq, exists_false, false_iff, not_and]
            intro hacc
            rcases hacc.2 with h | ⟨_, h⟩
            · exact absurd h hlab
            · rw [hcs] at h; simp at h
          | some p =>
            obtain ⟨r, s1⟩ := p
            have hcfg := change_seniority_sameConfig ext hcs
            by_cases hr : r = 0
            · subst hr
              simp only [if_true]
              rw [ih]
              constructor
              · intro h
                refine ⟨⟨htag, Or.inr ⟨hsen, by rw [hcs]; rfl⟩⟩, fun j h1 h2 => ?_⟩
                exact (indexAccepted_congr ext hcfg sgs ts j).mp (h j h1 h2)
              · intro h j h1 h2
                exact (indexAccepted_congr ext hcfg sgs ts j).mpr (h.2 j h1 h2)
            · simp only [if_neg hr, Option.some.injEq, Prod.mk.injEq, one_ne_zero, false_and,
                exists_false, false_iff, not_and]
              intro hacc
              rcases hacc.2 with h | ⟨_, h⟩
              · exact absurd h hlab
              · rw [hcs] at h
                simp only [Option.map_some', Option.some.injEq] at h
                exact absurd h hr
        · rw [if_neg hsen]
          simp only [Option.some.injEq, Prod.mk.injEq, one_ne_zero, false_and, exists_false,
            false_iff, not_and]
          intro hacc
          rcases hacc.2 with h | ⟨h, _⟩
          · exact absurd h hlab
          · exact absurd h hsen
    · rw [if_pos htag]
      simp only [Option.some.injEq, Prod.mk.injEq, one_ne_zero, false_and, exists_false,
        false_iff, not_and]
      intro hacc
      exact absurd hacc.1 htag

theorem change_seniority_reject {S R T : Type} (ext : Externals S R T)
    (s : GlobalState S R T) (i : Nat) (old : Int) (hne : old ≠ s.target_state i)
    (hopen : hasOpenBond s) (hneg : s.target_state i < 0 ∨ old < 0) :
    change_seniority ext s i old = some (1, s) := by
  unfold hasOpenBond at hopen
  simp only [change_seniority]
  rw [if_neg hne, if_neg hopen, if_pos hneg]

theorem change_seniority_returns {S R T : Type} (ext : Externals S R T)
    (s : GlobalState S R T) (i : Nat) (old : Int) (hopen : hasOpenBond s) :
    ∃ r s', change_seniority ext s i old = some (r, s') ∧ (r = 0 ∨ r = 1) := by
  unfold hasOpenBond at hopen
  simp only [change_seniority]
  split_ifs
  · exact ⟨0, _, rfl, Or.inl rfl⟩
  · exact ⟨1, _, rfl, Or.inr rfl⟩
  · exact ⟨0, _, rfl, Or.inl rfl⟩

theorem change_targetstate_loop_returns {S R T : Type} (ext : Externals S R T)
    (sgs ts : Nat → Int) (fuel : Nat) :
    ∀ (i : Nat) (s : GlobalState S R T), hasOpenBond s →
      ∃ r s', change_targetstate_loop ext sgs ts fuel i s = some (r, s') ∧ (r = 0 ∨ r = 1) := by
  induction fuel with
  | zero => intro i s _; exact ⟨0, s, rfl, Or.inl rfl⟩
  | succ fuel ih =>
    intro i s hopen
    unfold change_targetstate_loop
    split_ifs with h1 h2 h3
    · exact ⟨1, s, rfl, Or.inr rfl⟩
    · obtain ⟨r, s1, hcs, _⟩ := change_seniority_returns ext s i (ts i) hopen
      rw [hcs]
      by_cases hr : r = 0
      · simp only [hr, if_true]
        exact ih (i + 1) s1
          ((hasOpenBond_congr (change_seniority_sameConfig ext hcs)).mpr hopen)
      · simp only [if_neg hr]
        exact ⟨1, s1, rfl, Or.inr rfl⟩
    · exact ⟨1, s, rfl, Or.inr rfl⟩
    · exact ih (i + 1) s hopen

theorem change_targetstate_loop_reject {S R T : Type} (ext : Externals S R T)
    (sgs ts : Nat → Int) (k : Nat) (fuel : Nat) :
    ∀ (i : Nat) (s : GlobalState S R T), i ≤ k → k < i + fuel →
      (∀ j, i ≤ j → j < k → ts j = s.target_state j) →
      ts k ≠ s.target_state k →
      (sgs k ≠ ext.SENIORITY ∨ (hasOpenBond s ∧ (s.target_state k < 0 ∨ ts k < 0))) →
      change_targetstate_loop ext sgs ts fuel i s = some (1, s) := by
  induction fuel with
  | zero => intro i s h1 h2; omega
  | succ fuel ih =>
    intro i s hik hk hbefore hdiff hoff
    unfold change_targetstate_loop
    by_cases htag : sgs i = s.sgs i
    · rw [if_neg (not_not.mpr htag)]
      rcases Nat.eq_or_lt_of_le hik with rfl | hlt
      · rw [if_pos hdiff]
        rcases hoff with hsen | ⟨hopen, hneg⟩
        · rw [if_neg hsen]
        · by_cases hsen : sgs i = ext.SENIORITY
          · rw [if_pos hsen, change_seniority_reject ext s i (ts i) hdiff hopen hneg]
            simp
          · rw [if_neg hsen]
      · rw [if_neg (not_not.mpr (hbefore i (le_refl i) hlt))]
        exact ih (i + 1) s hlt (by omega) (fun j h1 h2 => hbefore j (by omega) h2) hdiff hoff
    · rw [if_pos htag]

theorem U1_max_loop_nonneg (prop : Nat → Nat → Int) (w : Nat) (n : Nat) :
    0 ≤ U1_max_loop prop w n := by
  induction n with
  | zero => exact le_refl 0
  | succ n ih =>
    simp only [U1_max_loop]
    split_ifs with h
    · omega
    · exact ih

theorem U1_max_loop_ge (prop : Nat → Nat → Int) (w : Nat) (n : Nat) :
    ∀ i, i < n → prop i w ≤ U1_max_loop prop w n := by
  induction n with
  | zero => intro i h; omega
  | succ n ih =>
    intro i hi
    simp only [U1_max_loop]
    rcases Nat.eq_or_lt_of_le (Nat.le_of_lt_succ hi) with rfl | hlt
    · split_ifs with h
      · exact le_refl _
      · omega
    · have := ih i hlt
      split_ifs with h
      · omega
      · exact this

theorem atoi_digits_head_not_digit (cs : List Char)
    (h : ∀ c, cs.head? = some c → isdigit c = false) : atoi_digits cs 0 = 0 := by
  cases cs with
  | nil => rfl
  | cons c cs =>
    have hc : isdigit c = false := h c rfl
    simp [atoi_digits, hc]

theorem atoi_signed_eq_numeral (buffer : List Char) :
    atoi_signed (buffer.dropWhile isspace) = (atoi_digits (atoi_numeral buffer) 0 : Int) ∨
      atoi_signed (buffer.dropWhile isspace) = -(atoi_digits (atoi_numeral buffer) 0 : Int) := by
  unfold atoi_numeral
  cases buffer.dropWhile isspace with
  | nil => left; rfl
  | cons c cs =>
    simp only [atoi_signed]
    by_cases hm : c = '-'
    · right; simp [hm]
    · by_cases hp : c = '+'
      · left; simp [hp]
      · left; simp [hm, hp]

theorem atoi_numeral_of_head_zero (buffer : List Char) (h : buffer.head? = some '0') :
    (atoi_numeral buffer).head? = some '0' := by
  cases buffer with
  | nil => simp at h
  | cons c cs =>
    simp only [List.head?_cons, Option.some.injEq] at h
    subst h
    have hsp : ¬ (isspace '0' = true) := by decide
    unfold atoi_numeral
    rw [List.dropWhile_cons_of_neg hsp]
    simp

/-! ## Lemmas on the file name -/

theorem getLast?_eq_dropLast_append {l : List Char} {c : Char} (h : l.getLast? = some c) :
    l = l.dropLast ++ [c] :=
  (List.dropLast_append_getLast? c (by simp [h])).symm

theorem head?_eq_cons_tail {l : List Char} {c : Char} (h : l.head? = some c) :
    l = c :: l.tail := by
  cases l with
  | nil => simp at h
  | cons a t => simp at h; simp [h]

theorem h5f_name_strncat_length (res f : List Char) (len size : Int) (r : List Char)
    (hsize : 1 ≤ size) (h : h5f_name_strncat res len f size = some r) :
    (r.length : Int) ≤ size - 1 := by
  unfold h5f_name_strncat at h
  split_ifs at h
  simp only [Option.some.injEq] at h
  subst h
  rw [List.length_take]
  omega

theorem make_h5f_name_length (loc f : List Char) (size : Int) (r : List Char)
    (h : make_h5f_name loc f size = some r) : (r.length : Int) ≤ size - 1 := by
  unfold make_h5f_name at h
  by_cases h1 : size < 1
  · simp [h1] at h
  · have hs : 1 ≤ size := by omega
    simp only [h1, if_false, h5f_name_remove] at h
    split_ifs at h <;> exact h5f_name_strncat_length _ _ _ _ _ hs h

theorem h5f_name_strncat_fits (res f : List Char) (size : Int)
    (h : ((res ++ f).length : Int) < size) :
    h5f_name_strncat res res.length f size = some (res ++ f) := by
  rw [List.length_append] at h
  unfold h5f_name_strncat
  rw [if_neg (by omega)]
  rw [List.take_of_length_le (l := f) (by omega)]
  rw [List.take_of_length_le (by rw [List.length_append]; omega)]

theorem make_h5f_name_joined (loc f : List Char) (size : Int) (hloc : loc ≠ [])
    (hsize : ((joined_name loc f).length : Int) < size) :
    make_h5f_name loc f size = some (joined_name loc f) := by
  have hlen : 0 < loc.length := List.length_pos.mpr hloc
  unfold joined_name at hsize ⊢
  by_cases hL : loc.getLast? = some '/' <;> by_cases hF : f.head? = some '/'
  · -- both have the separator: the one of the location is removed
    have hf := head?_eq_cons_tail hF
    have hjoin : loc.dropLast ++ ['/'] ++ f.tail = loc.dropLast ++ f := by
      conv_rhs => rw [hf]
      simp
    simp only [hL, hF, if_true] at hsize ⊢
    rw [hjoin] at hsize ⊢
    have hsz := hsize
    rw [List.length_append, List.length_dropLast] at hsz
    have hflen : 0 < f.length := by rw [hf]; simp
    have htake : loc.take (size - 1).toNat = loc := List.take_of_length_le (by omega)
    unfold make_h5f_name
    rw [if_neg (by omega)]
    simp only [htake]
    rw [if_neg (by omega), if_neg (by simp [hL]), h5f_name_remove, if_pos ⟨hL, hF⟩]
    have hcast : (loc.length : Int) - 1 = (loc.dropLast.length : Int) := by
      rw [List.length_dropLast]; omega
    rw [hcast]
    exact h5f_name_strncat_fits _ _ _ hsize
  · -- only the location has it
    have hl := getLast?_eq_dropLast_append hL
    have hjoin : loc.dropLast ++ ['/'] ++ f = loc ++ f := by rw [← hl]
    simp only [hL, hF, if_true, if_false] at hsize ⊢
    rw [hjoin] at hsize ⊢
    have hsz := hsize
    rw [List.length_append] at hsz
    have htake : loc.take (size - 1).toNat = loc := List.take_of_length_le (by omega)
    unfold make_h5f_name
    rw [if_neg (by omega)]
    simp only [htake]
    rw [if_neg (by omega), if_neg (by simp [hL]), h5f_name_remove, if_neg (by simp [hF])]
    exact h5f_name_strncat_fits _ _ _ hsize
  · -- only the file name has it
    have hf := head?_eq_cons_tail hF
    have hjoin : loc ++ ['/'] ++ f.tail = loc ++ f := by
      conv_rhs => rw [hf]
      simp
    simp only [hL, hF, if_true, if_false] at hsize ⊢
    rw [hjoin] at hsize ⊢
    have hsz := hsize
    rw [List.length_append] at hsz
    have htake : loc.take (size - 1).toNat = loc := List.take_of_length_le (by omega)
    unfold make_h5f_name
    rw [if_neg (by omega)]
    simp only [htake]
    rw [if_neg (by omega), if_neg (by simp [hF]), h5f_name_remove, if_neg (by simp [hL])]
    exact h5f_name_strncat_fits _ _ _ hsize
  · -- neither has it: a separator is added
    simp only [hL, hF, if_false] at hsize ⊢
    have hsz := hsize
    rw [List.length_append, List.length_append] at hsz
    simp only [List.length_cons, List.length_nil] at hsz
    have htake : loc.take (size - 1).toNat = loc := List.take_of_length_le (by omega)
    unfold make_h5f_name
    rw [if_neg (by omega)]
    simp only [htake]
    rw [if_neg (by omega), if_pos ⟨hL, hF⟩, if_neg (by omega), h5f_name_remove,
      if_neg (by simp [hF])]
    have hcast : (loc.length : Int) + 1 = ((loc ++ ['/']).length : Int) := by
      rw [List.length_append]; simp
    rw [hcast]
    exact h5f_name_strncat_fits _ _ _ hsize

theorem make_h5f_name_none_of_long (loc f : List Char) (size : Int) (hf : f ≠ [])
    (hF : f.head? ≠ some '/') (hlong : size ≤ ((joined_name loc f).length : Int)) :
    make_h5f_name loc f size = none := by
  have hflen : 0 < f.length := List.length_pos.mpr hf
  unfold make_h5f_name
  by_cases h1 : size < 1
  · rw [if_pos h1]
  rw [if_neg h1]
  simp only []
  by_cases h0 : ((loc.take (size - 1).toNat).length : Int) = 0
  · rw [if_pos h0]
  rw [if_neg h0]
  have hlt : (loc.take (size - 1).toNat).length = min (size - 1).toNat loc.length :=
    List.length_take _ _
  by_cases ht : loc.length ≤ (size - 1).toNat
  · -- the location was copied whole
    have htake : loc.take (size - 1).toNat = loc := List.take_of_length_le ht
    rw [htake]
    unfold joined_name at hlong
    by_cases hL : loc.getLast? = some '/'
    · simp only [hL, hF, if_true, if_false, List.length_append, List.length_dropLast,
        List.length_cons, List.length_nil] at hlong
      have hpos : 0 < loc.length := by
        rcases loc with _ | ⟨a, t⟩
        · simp at hL
        · simp
      rw [if_neg (fun h => h.1 hL), h5f_name_remove, if_neg (fun h => hF h.2), h5f_name_strncat,
        if_pos (by omega)]
    · simp only [hL, hF, if_false, List.length_append,
        List.length_cons, List.length_nil] at hlong
      rw [if_pos ⟨hL, hF⟩]
      by_cases h2 : (loc.length : Int) + 1 ≥ size
      · rw [if_pos h2]
      · rw [if_neg h2, h5f_name_remove, if_neg (fun h => hF h.2), h5f_name_strncat,
          if_pos (by omega)]
  · -- the location was cut to `size - 1` characters
    have hlen : ((loc.take (size - 1).toNat).length : Int) = size - 1 := by
      rw [hlt]; omega
    by_cases hL : (loc.take (size - 1).toNat).getLast? = some '/'
    · rw [if_neg (fun h => h.1 hL), h5f_name_remove, if_neg (fun h => hF h.2), h5f_name_strncat,
        if_pos (by omega)]
    · rw [if_pos ⟨hL, hF⟩, if_pos (by omega)]

/-! ## Lemmas on the snapshot file -/

theorem lookup_entry_append {κ α : Type} [DecidableEq κ] (k : κ) (l1 l2 : List (κ × α)) :
    lookup_entry k (l1 ++ l2) =
      match lookup_entry k l1 with
      | some v => some v
      | none => lookup_entry k l2 := by
  induction l1 with
  | nil => rfl
  | cons e l1 ih =>
    obtain ⟨k', v⟩ := e
    simp only [List.cons_append, lookup_entry]
    split_ifs
    · rfl
    · exact ih

theorem lookup_add_entry_self {κ α : Type} [DecidableEq κ] (k : κ) (v : α) (l : List (κ × α))
    (h : lookup_entry k l = none) : lookup_entry k (add_entry k v l) = some v := by
  unfold add_entry
  rw [h]
  simp [lookup_entry_append, h, lookup_entry]

theorem lookup_add_entry_of_ne {κ α : Type} [DecidableEq κ] {k k' : κ} (v : α)
    (l : List (κ × α)) (h : k ≠ k') : lookup_entry k' (add_entry k v l) = lookup_entry k' l := by
  unfold add_entry
  split_ifs
  · rfl
  · rw [lookup_entry_append]
    cases lookup_entry k' l with
    | some w => rfl
    | none => simp [lookup_entry, h]

theorem write_attribute_datasets (g : H5Group) (n : String) (atr : Option Buffer) (size : Nat)
    (kind : hdf5type) : (write_attribute g n atr size kind).datasets = g.datasets := by
  unfold write_attribute
  cases atr with
  | none => rfl
  | some b => simp only; split_ifs <;> rfl

theorem write_attribute_groups (g : H5Group) (n : String) (atr : Option Buffer) (size : Nat)
    (kind : hdf5type) : (write_attribute g n atr size kind).groups = g.groups := by
  unfold write_attribute
  cases atr with
  | none => rfl
  | some b => simp only; split_ifs <;> rfl

theorem write_attribute_lookup_self (g : H5Group) (n : String) (b : Buffer) (size : Nat)
    (kind : hdf5type) (h : lookup_entry n g.attributes = none) :
    lookup_entry n (write_attribute g n (some b) size kind).attributes =
      if size = 0 then none else some ⟨kind, b.first size⟩ := by
  unfold write_attribute
  simp only
  split_ifs
  · exact h
  · exact lookup_add_entry_self _ _ _ h

theorem write_attribute_lookup_of_ne (g : H5Group) {n n' : String} (atr : Option Buffer)
    (size : Nat) (kind : hdf5type) (h : n ≠ n') :
    lookup_entry n' (write_attribute g n atr size kind).attributes =
      lookup_entry n' g.attributes := by
  unfold write_attribute
  cases atr with
  | none => rfl
  | some b =>
    simp only
    split_ifs
    · rfl
    · exact lookup_add_entry_of_ne _ _ h

theorem write_dataset_attributes (g : H5Group) (n : String) (dat : Option Buffer) (size : Nat)
    (kind : hdf5type) : (write_dataset g n dat size kind).attributes = g.attributes := by
  unfold write_dataset
  cases dat with
  | none => rfl
  | some b => simp only; split_ifs <;> rfl

theorem write_dataset_groups (g : H5Group) (n : String) (dat : Option Buffer) (size : Nat)
    (kind : hdf5type) : (write_dataset g n dat size kind).groups = g.groups := by
  unfold write_dataset
  cases dat with
  | none => rfl
  | some b => simp only; split_ifs <;> rfl

theorem write_dataset_lookup_self (g : H5Group) (n : String) (dat : Option Buffer) (size : Nat)
    (kind : hdf5type) (h : lookup_entry n g.datasets = none) :
    lookup_entry n (write_dataset g n dat size kind).datasets =
      match dat with
      | none => none
      | some b => if size = 0 then none else some ⟨kind, b.first size⟩ := by
  unfold write_dataset
  cases dat with
  | none => exact h
  | some b =>
    simp only
    split_ifs
    · exact h
    · exact lookup_add_entry_self _ _ _ h

theorem write_dataset_lookup_of_ne (g : H5Group) {n n' : String} (dat : Option Buffer)
    (size : Nat) (kind : hdf5type) (h : n ≠ n') :
    lookup_entry n' (write_dataset g n dat size kind).datasets =
      lookup_entry n' g.datasets := by
  unfold write_dataset
  cases dat with
  | none => rfl
  | some b =>
    simp only
    split_ifs
    · rfl
    · exact lookup_add_entry_of_ne _ _ h

theorem H5Gclose_created_attributes (id : H5Group) (name : H5Name) (g : H5Group) :
    (H5Gclose_created id name g).attributes = id.attributes := rfl

theorem H5Gclose_created_datasets (id : H5Group) (name : H5Name) (g : H5Group) :
    (H5Gclose_created id name g).datasets = id.datasets := rfl

theorem H5Gopen_created (id : H5Group) (name : H5Name) (g : H5Group)
    (h : lookup_entry name id.groups = none) :
    H5Gopen (some (H5Gclose_created id name g)) name = some g :=
  lookup_add_entry_self _ _ _ h

theorem H5Gopen_created_of_ne (id : H5Group) {name name' : H5Name} (g : H5Group)
    (h : name ≠ name') :
    H5Gopen (some (H5Gclose_created id name g)) name' = H5Gopen (some id) name' :=
  lookup_add_entry_of_ne _ _ h

theorem hsize_of_nonneg {x : Int} (h0 : 0 ≤ x) (h : isInt x) : hsize x = x.toNat := by
  unfold isInt INT_MIN INT_MAX at h
  unfold hsize
  rw [Int.emod_eq_of_lt h0 (by omega)]

theorem safe_malloc_int_length (u : Uninit) (n : Int) : (safe_malloc_int u n).length = n.toNat := by
  simp [safe_malloc_int]

theorem safe_malloc_double_length (u : Uninit) (n : Int) :
    (safe_malloc_double u n).length = n.toNat := by
  simp [safe_malloc_double]

theorem store_ints_written (u : Uninit) (l : List Int) (n : Int) (hn : isInt n)
    (hl : (l.length : Int) = n) :
    store_ints (if hsize n = 0 then none else some (Buffer.first (hsize n) (.ints l)))
      (safe_malloc_int u n) = l := by
  have h0 : 0 ≤ n := by omega
  rw [hsize_of_nonneg h0 hn]
  have hlen : n.toNat = l.length := by omega
  rw [hlen]
  by_cases hz : l.length = 0
  · have : l = [] := List.length_eq_zero.mp hz
    subst this
    simp [store_ints, safe_malloc_int, hlen]
  · rw [if_neg hz]
    simp only [Buffer.first, List.take_length, store_ints, safe_malloc_int_length, hlen]
    rw [List.drop_of_length_le (by rw [safe_malloc_int_length]; omega)]
    simp

theorem store_doubles_written (u : Uninit) (l : List Nat) (n : Int) (hn : isInt n)
    (hl : (l.length : Int) = n) :
    store_doubles (if hsize n = 0 then none else some (Buffer.first (hsize n) (.doubles l)))
      (safe_malloc_double u n) = l := by
  have h0 : 0 ≤ n := by omega
  rw [hsize_of_nonneg h0 hn]
  have hlen : n.toNat = l.length := by omega
  rw [hlen]
  by_cases hz : l.length = 0
  · have : l = [] := List.length_eq_zero.mp hz
    subst this
    simp [store_doubles, safe_malloc_double, hlen]
  · rw [if_neg hz]
    simp only [Buffer.first, List.take_length, store_doubles, safe_malloc_double_length, hlen]
    rw [List.drop_of_length_le (by rw [safe_malloc_double_length]; omega)]
    simp

theorem read_attribute_int_written (g : H5Group) (n : String) (x old : Int)
    (h : lookup_entry n g.attributes = some ⟨.THDF5_INT, .ints [x]⟩) :
    store_int (read_attribute (some g) n) old = x := by
  simp [read_attribute, h, store_int]

theorem read_write_sparseblocks (u : Uninit) (id : H5Group) (block old : sparseblocks)
    (nrblocks nmbr : Int) (hnew : lookup_entry (H5Name.block nmbr) id.groups = none)
    (hl : sparseblocks_layout block nrblocks) :
    ∃ b', read_sparseblocks_from_disk u
        (some (write_sparseblocks_to_disk id (some block) nrblocks nmbr)) old nrblocks nmbr =
          .ok b' ∧
      b'.beginblock = block.beginblock ∧ b'.tel.getD [] = block.tel.getD [] := by
  obtain ⟨hint, hl⟩ := hl
  have hcount : lookup_entry "nrBlocks"
      (write_attribute H5Group.empty "nrBlocks" (some (.ints [nrblocks])) 1
        .THDF5_INT).attributes = some ⟨.THDF5_INT, .ints [nrblocks]⟩ := by
    rw [write_attribute_lookup_self _ _ _ _ _ (by rfl)]
    rfl
  unfold write_sparseblocks_to_disk read_sparseblocks_from_disk
  by_cases h0 : nrblocks = 0
  · rw [if_pos h0] at hl
    simp only [h0, if_true]
    rw [H5Gopen_created _ _ _ hnew]
    simp only
    rw [h0] at hcount
    rw [read_attribute_int_written _ _ _ _ hcount]
    simp only [ne_eq, not_true_eq_false, if_false, if_true]
    exact ⟨_, rfl, hl.1.symm, by rw [hl.2]⟩
  · rw [if_neg h0] at hl
    obtain ⟨hbb, hlen, _, htot, htel⟩ := hl
    obtain ⟨bb, hbbeq⟩ := Option.ne_none_iff_exists'.mp hbb
    simp only [hbbeq, Option.getD_some] at hlen htot htel
    simp only [h0, if_false, hbbeq, Option.map_some', Option.getD_some]
    rw [H5Gopen_created _ _ _ hnew]
    simp only
    rw [read_attribute_int_written _ _ _ _ (by
      rw [write_dataset_attributes, write_dataset_attributes]; exact hcount)]
    simp only [ne_eq, not_true_eq_false, if_false, h0]
    have hread_bb : store_ints (read_dataset (some (write_dataset (write_dataset
        (write_attribute H5Group.empty "nrBlocks" (some (.ints [nrblocks])) 1 .THDF5_INT)
        "./beginblock" (some (.ints bb)) (hsize (wrapInt (nrblocks + 1))) .THDF5_INT)
        "./tel" (block.tel.map Buffer.doubles) (hsize (cell bb nrblocks)) .THDF5_EL_TYPE))
        "./beginblock") (safe_malloc_int u (wrapInt (nrblocks + 1))) = bb := by
      unfold read_dataset
      simp only
      rw [write_dataset_lookup_of_ne _ _ _ _ (by decide),
        write_dataset_lookup_self _ _ _ _ _ (by rw [write_attribute_datasets]; rfl)]
      simp only [apply_ite (Option.map H5Data.data), Option.map_none', Option.map_some']
      rw [wrapInt_of_isInt hint]
      exact store_ints_written u bb (nrblocks + 1) hint hlen
    rw [hread_bb]
    by_cases ht : cell bb nrblocks = 0
    · rw [if_pos ht]
      refine ⟨_, rfl, rfl, ?_⟩
      have : (block.tel.getD []).length = 0 := by omega
      simp [List.length_eq_zero.mp this]
    · rw [if_neg ht]
      refine ⟨_, rfl, rfl, ?_⟩
      cases htl : block.tel with
      | none =>
        rw [htl] at htel
        simp at htel
        exact absurd htel.symm ht
      | some t =>
        rw [htl] at htel
        simp only [Option.getD_some] at htel ⊢
        unfold read_dataset
        simp only [Option.map_some']
        rw [write_dataset_lookup_self _ _ _ _ _ (by
          rw [write_dataset_lookup_of_ne _ _ _ _ (by decide), write_attribute_datasets]; rfl)]
        simp only [apply_ite (Option.map H5Data.data), Option.map_none', Option.map_some']
        exact store_doubles_written u t (cell bb nrblocks) htot htel

theorem write_sparseblocks_attributes (id : H5Group) (block : Option sparseblocks)
    (nrblocks nmbr : Int) :
    (write_sparseblocks_to_disk id block nrblocks nmbr).attributes = id.attributes := by
  unfold write_sparseblocks_to_disk
  cases block with
  | none => rfl
  | some b => simp only; split_ifs <;> rfl

theorem write_sparseblocks_datasets (id : H5Group) (block : Option sparseblocks)
    (nrblocks nmbr : Int) :
    (write_sparseblocks_to_disk id block nrblocks nmbr).datasets = id.datasets := by
  unfold write_sparseblocks_to_disk
  cases block with
  | none => rfl
  | some b => simp only; split_ifs <;> rfl

theorem read_write_siteTensor (u : Uninit) (id : H5Group) (tens old : siteTensor) (nmbr : Int)
    (hnew : lookup_entry (H5Name.tensor nmbr) id.groups = none)
    (hl : siteTensor_layout tens) :
    ∃ tens', read_siteTensor_from_disk u (some (write_siteTensor_to_disk id tens nmbr)) old
        nmbr = .ok tens' ∧
      tens'.nrsites = tens.nrsites ∧ tens'.sites = tens.sites ∧
      tens'.nrblocks = tens.nrblocks ∧ tens'.qnumbers = tens.qnumbers ∧
      tens'.blocks.beginblock = tens.blocks.beginblock ∧
      tens'.blocks.tel.getD [] = tens.blocks.tel.getD [] := by
  obtain ⟨hns, hsites, hnq, hq, hblocks⟩ := hl
  unfold write_siteTensor_to_disk read_siteTensor_from_disk
  simp only
  rw [H5Gopen_created _ _ _ hnew]
  have hnrsites : store_int (read_attribute (some (write_sparseblocks_to_disk
      (write_dataset (write_attribute (write_attribute (write_attribute H5Group.empty
        "nrsites" (some (.ints [tens.nrsites])) 1 .THDF5_INT)
        "sites" (some (.ints tens.sites)) (hsize tens.nrsites) .THDF5_INT)
        "nrblocks" (some (.ints [tens.nrblocks])) 1 .THDF5_INT)
        "./qnumbers" (some (.ints tens.qnumbers))
        (hsize (wrapInt (tens.nrblocks * tens.nrsites))) .THDF5_QN_TYPE)
      (some tens.blocks) tens.nrblocks 0)) "nrsites") old.nrsites = tens.nrsites := by
    apply read_attribute_int_written
    rw [write_sparseblocks_attributes, write_dataset_attributes,
      write_attribute_lookup_of_ne _ _ _ _ (by decide),
      write_attribute_lookup_of_ne _ _ _ _ (by decide),
      write_attribute_lookup_self _ _ _ _ _ (by rfl)]
    rfl
  have hnrblocks : store_int (read_attribute (some (write_sparseblocks_to_disk
      (write_dataset (write_attribute (write_attribute (write_attribute H5Group.empty
        "nrsites" (some (.ints [tens.nrsites])) 1 .THDF5_INT)
        "sites" (some (.ints tens.sites)) (hsize tens.nrsites) .THDF5_INT)
        "nrblocks" (some (.ints [tens.nrblocks])) 1 .THDF5_INT)
        "./qnumbers" (some (.ints tens.qnumbers))
        (hsize (wrapInt (tens.nrblocks * tens.nrsites))) .THDF5_QN_TYPE)
      (some tens.blocks) tens.nrblocks 0)) "nrblocks") old.nrblocks = tens.nrblocks := by
    apply read_attribute_int_written
    rw [write_sparseblocks_attributes, write_dataset_attributes,
      write_attribute_lookup_self _ _ _ _ _ (by
        rw [write_attribute_lookup_of_ne _ _ _ _ (by decide),
          write_attribute_lookup_of_ne _ _ _ _ (by decide)]; rfl)]
    rfl
  rw [hnrsites, hnrblocks]
  have hsites' : store_ints (read_attribute (some (write_sparseblocks_to_disk
      (write_dataset (write_attribute (write_attribute (write_attribute H5Group.empty
        "nrsites" (some (.ints [tens.nrsites])) 1 .THDF5_INT)
        "sites" (some (.ints tens.sites)) (hsize tens.nrsites) .THDF5_INT)
        "nrblocks" (some (.ints [tens.nrblocks])) 1 .THDF5_INT)
        "./qnumbers" (some (.ints tens.qnumbers))
        (hsize (wrapInt (tens.nrblocks * tens.nrsites))) .THDF5_QN_TYPE)
      (some tens.blocks) tens.nrblocks 0)) "sites") (safe_malloc_int u tens.nrsites) =
        tens.sites := by
    unfold read_attribute
    simp only
    rw [write_sparseblocks_attributes, write_dataset_attributes,
      write_attribute_lookup_of_ne _ _ _ _ (by decide),
      write_attribute_lookup_self _ _ _ _ _ (by
        rw [write_attribute_lookup_of_ne _ _ _ _ (by decide)]; rfl)]
    simp only [apply_ite (Option.map H5Data.data), Option.map_none', Option.map_some']
    exact store_ints_written u tens.sites tens.nrsites hns hsites
  have hq' : store_ints (read_dataset (some (write_sparseblocks_to_disk
      (write_dataset (write_attribute (write_attribute (write_attribute H5Group.empty
        "nrsites" (some (.ints [tens.nrsites])) 1 .THDF5_INT)
        "sites" (some (.ints tens.sites)) (hsize tens.nrsites) .THDF5_INT)
        "nrblocks" (some (.ints [tens.nrblocks])) 1 .THDF5_INT)
        "./qnumbers" (some (.ints tens.qnumbers))
        (hsize (wrapInt (tens.nrblocks * tens.nrsites))) .THDF5_QN_TYPE)
      (some tens.blocks) tens.nrblocks 0)) "./qnumbers")
      (safe_malloc_int u (wrapInt (tens.nrblocks * tens.nrsites))) = tens.qnumbers := by
    unfold read_dataset
    simp only
    rw [write_sparseblocks_datasets,
      write_dataset_lookup_self _ _ _ _ _ (by
        rw [write_attribute_datasets, write_attribute_datasets, write_attribute_datasets]; rfl)]
    simp only [apply_ite (Option.map H5Data.data), Option.map_none', Option.map_some']
    rw [wrapInt_of_isInt hnq]
    exact store_ints_written u tens.qnumbers _ hnq hq
  rw [hsites', hq']
  obtain ⟨b', hb', hbb, htel⟩ := read_write_sparseblocks u
    (write_dataset (write_attribute (write_attribute (write_attribute H5Group.empty
        "nrsites" (some (.ints [tens.nrsites])) 1 .THDF5_INT)
        "sites" (some (.ints tens.sites)) (hsize tens.nrsites) .THDF5_INT)
        "nrblocks" (some (.ints [tens.nrblocks])) 1 .THDF5_INT)
        "./qnumbers" (some (.ints tens.qnumbers))
        (hsize (wrapInt (tens.nrblocks * tens.nrsites))) .THDF5_QN_TYPE)
    tens.blocks old.blocks tens.nrblocks 0
    (by rw [write_dataset_groups, write_attribute_groups, write_attribute_groups,
      write_attribute_groups]; rfl)
    hblocks
  rw [hb']
  exact ⟨_, rfl, rfl, rfl, rfl, rfl, hbb, htel⟩

theorem flatten_length_uniform (rows : List (List Int)) (M : Nat)
    (h : ∀ row ∈ rows, row.length = M) : rows.flatten.length = rows.length * M := by
  induction rows with
  | nil => simp
  | cons r rs ih =>
    rw [List.flatten_cons, List.length_append, List.length_cons,
      ih (fun row hr => h row (List.mem_cons_of_mem r hr)), h r (List.mem_cons_self r rs)]
    ring

theorem flatten_getD_uniform (rows : List (List Int)) (M : Nat)
    (h : ∀ row ∈ rows, row.length = M) (d : Int) :
    ∀ i j, j < M → rows.flatten.getD (i * M + j) d = (rows.getD i []).getD j d := by
  induction rows with
  | nil => intro i j _; simp
  | cons r rs ih =>
    intro i j hj
    have hr : r.length = M := h r (List.mem_cons_self r rs)
    have hrs : ∀ row ∈ rs, row.length = M := fun row hm => h row (List.mem_cons_of_mem r hm)
    rw [List.flatten_cons]
    cases i with
    | zero =>
      simp only [Nat.zero_mul, Nat.zero_add, List.getD_cons_zero]
      exact List.getD_append _ _ _ _ (by omega)
    | succ i =>
      rw [List.getD_cons_succ, ← ih hrs i j hj]
      have hidx : (i + 1) * M + j = r.length + (i * M + j) := by rw [hr]; ring
      rw [hidx]
      rw [List.getD_append_right _ _ _ _ (by omega)]
      congr 1
      omega

theorem getD_map_range {α : Type} (f : Nat → α) (n i : Nat) (d : α) (h : i < n) :
    ((List.range n).map f).getD i d = f i := by
  rw [List.getD_eq_getElem _ _ (by simpa using h)]
  simp

theorem read_write_symsec (u : Uninit) (MAX_written MAX_SYMMETRIES : Int) (id : H5Group)
    (ssec old : symsecs) (nmbr : Int) (kind : Char) (nrSyms : Int)
    (hnew : lookup_entry (H5Name.symsec kind nmbr) id.groups = none)
    (hl : symsecs_layout MAX_written ssec) (hle : nrSyms ≤ MAX_written) :
    ∃ r, read_symsec_from_disk u MAX_SYMMETRIES
        (some (write_symsec_to_disk MAX_written id ssec nmbr kind)) old nmbr MAX_written nrSyms
        kind = r ∧
      r.nrSecs = ssec.nrSecs ∧ r.totaldims = ssec.totaldims ∧ r.dims = ssec.dims ∧
      r.fcidims = ssec.fcidims ∧
      (∀ i j : Nat, (i : Int) < ssec.nrSecs → (j : Int) < MAX_SYMMETRIES →
        (r.irreps.getD i []).getD j 0 =
          if (j : Int) < nrSyms then (ssec.irreps.getD i []).getD j 0
          else u.int (i * MAX_SYMMETRIES.toNat + j)) := by
  obtain ⟨hn, hnm, hM, hdims, hfci, hrows, hrow⟩ := hl
  refine ⟨_, rfl, ?_⟩
  unfold write_symsec_to_disk read_symsec_from_disk
  simp only
  rw [H5Gopen_created _ _ _ hnew]
  have hnrSecs : store_int (read_attribute (some
      (write_dataset (write_dataset (write_dataset (write_attribute (write_attribute
        H5Group.empty "nrSecs" (some (.ints [ssec.nrSecs])) 1 .THDF5_INT)
        "totaldims" (some (.ints [ssec.totaldims])) 1 .THDF5_INT)
        "./dims" (some (.ints ssec.dims)) (hsize ssec.nrSecs) .THDF5_INT)
        "./irreps" (some (.ints ssec.irreps.flatten))
          (hsize (wrapInt (ssec.nrSecs * MAX_written))) .THDF5_INT)
        "./fcidims" (some (.doubles ssec.fcidims)) (hsize ssec.nrSecs) .THDF5_DOUBLE))
      "nrSecs") old.nrSecs = ssec.nrSecs := by
    apply read_attribute_int_written
    rw [write_dataset_attributes, write_dataset_attributes, write_dataset_attributes,
      write_attribute_lookup_of_ne _ _ _ _ (by decide),
      write_attribute_lookup_self _ _ _ _ _ (by rfl)]
    rfl
  have htot : store_int (read_attribute (some
      (write_dataset (write_dataset (write_dataset (write_attribute (write_attribute
        H5Group.empty "nrSecs" (some (.ints [ssec.nrSecs])) 1 .THDF5_INT)
        "totaldims" (some (.ints [ssec.totaldims])) 1 .THDF5_INT)
        "./dims" (some (.ints ssec.dims)) (hsize ssec.nrSecs) .THDF5_INT)
        "./irreps" (some (.ints ssec.irreps.flatten))
          (hsize (wrapInt (ssec.nrSecs * MAX_written))) .THDF5_INT)
        "./fcidims" (some (.doubles ssec.fcidims)) (hsize ssec.nrSecs) .THDF5_DOUBLE))
      "totaldims") old.totaldims = ssec.totaldims := by
    apply read_attribute_int_written
    rw [write_dataset_attributes, write_dataset_attributes, write_dataset_attributes,
      write_attribute_lookup_self _ _ _ _ _ (by
        rw [write_attribute_lookup_of_ne _ _ _ _ (by decide)]; rfl)]
    rfl
  have hd : store_ints (read_dataset (some
      (write_dataset (write_dataset (write_dataset (write_attribute (write_attribute
        H5Group.empty "nrSecs" (some (.ints [ssec.nrSecs])) 1 .THDF5_INT)
        "totaldims" (some (.ints [ssec.totaldims])) 1 .THDF5_INT)
        "./dims" (some (.ints ssec.dims)) (hsize ssec.nrSecs) .THDF5_INT)
        "./irreps" (some (.ints ssec.irreps.flatten))
          (hsize (wrapInt (ssec.nrSecs * MAX_written))) .THDF5_INT)
        "./fcidims" (some (.doubles ssec.fcidims)) (hsize ssec.nrSecs) .THDF5_DOUBLE))
      "./dims") (safe_malloc_int u ssec.nrSecs) = ssec.dims := by
    unfold read_dataset
    simp only
    rw [write_dataset_lookup_of_ne _ _ _ _ (by decide),
      write_dataset_lookup_of_ne _ _ _ _ (by decide),
      write_dataset_lookup_self _ _ _ _ _ (by
        rw [write_attribute_datasets, write_attribute_datasets]; rfl)]
    simp only [apply_ite (Option.map H5Data.data), Option.map_none', Option.map_some']
    exact store_ints_written u ssec.dims ssec.nrSecs hn hdims
  have hflat : (ssec.irreps.flatten.length : Int) = ssec.nrSecs * MAX_written := by
    rw [flatten_length_uniform _ _ hrow]
    push_cast
    rw [hrows, Int.toNat_of_nonneg hM]
  have hi : store_ints (read_dataset (some
      (write_dataset (write_dataset (write_dataset (write_attribute (write_attribute
        H5Group.empty "nrSecs" (some (.ints [ssec.nrSecs])) 1 .THDF5_INT)
        "totaldims" (some (.ints [ssec.totaldims])) 1 .THDF5_INT)
        "./dims" (some (.ints ssec.dims)) (hsize ssec.nrSecs) .THDF5_INT)
        "./irreps" (some (.ints ssec.irreps.flatten))
          (hsize (wrapInt (ssec.nrSecs * MAX_written))) .THDF5_INT)
        "./fcidims" (some (.doubles ssec.fcidims)) (hsize ssec.nrSecs) .THDF5_DOUBLE))
      "./irreps") (safe_malloc_int u (wrapInt (ssec.nrSecs * MAX_written))) =
        ssec.irreps.flatten := by
    unfold read_dataset
    simp only
    rw [write_dataset_lookup_of_ne _ _ _ _ (by decide),
      write_dataset_lookup_self _ _ _ _ _ (by
        rw [write_dataset_lookup_of_ne _ _ _ _ (by decide), write_attribute_datasets,
          write_attribute_datasets]; rfl)]
    simp only [apply_ite (Option.map H5Data.data), Option.map_none', Option.map_some']
    rw [wrapInt_of_isInt hnm]
    exact store_ints_written u _ _ hnm hflat
  have hf : store_doubles (read_dataset (some
      (write_dataset (write_dataset (write_dataset (write_attribute (write_attribute
        H5Group.empty "nrSecs" (some (.ints [ssec.nrSecs])) 1 .THDF5_INT)
        "totaldims" (some (.ints [ssec.totaldims])) 1 .THDF5_INT)
        "./dims" (some (.ints ssec.dims)) (hsize ssec.nrSecs) .THDF5_INT)
        "./irreps" (some (.ints ssec.irreps.flatten))
          (hsize (wrapInt (ssec.nrSecs * MAX_written))) .THDF5_INT)
        "./fcidims" (some (.doubles ssec.fcidims)) (hsize ssec.nrSecs) .THDF5_DOUBLE))
      "./fcidims") (safe_malloc_double u ssec.nrSecs) = ssec.fcidims := by
    unfold read_dataset
    simp only
    rw [write_dataset_lookup_self _ _ _ _ _ (by
        rw [write_dataset_lookup_of_ne _ _ _ _ (by decide),
          write_dataset_lookup_of_ne _ _ _ _ (by decide), write_attribute_datasets,
          write_attribute_datasets]; rfl)]
    simp only [apply_ite (Option.map H5Data.data), Option.map_none', Option.map_some']
    exact store_doubles_written u ssec.fcidims ssec.nrSecs hn hfci
  rw [hnrSecs, htot, hd, hi, hf]
  refine ⟨rfl, rfl, rfl, rfl, ?_⟩
  intro i j hi' hj
  have hn0 : 0 ≤ ssec.nrSecs := by omega
  rw [getD_map_range _ _ _ _ (by omega), getD_map_range _ _ _ _ (by omega)]
  split_ifs with hjn
  · have hjM : (j : Int) < MAX_written := by omega
    have hmul : ((i : Int) + 1) * MAX_written ≤ ssec.nrSecs * MAX_written :=
      Int.mul_le_mul_of_nonneg_right (by omega) hM
    have hi0 : (0 : Int) ≤ (i : Int) * MAX_written := Int.mul_nonneg (by omega) hM
    have hidx : isInt ((i : Int) * MAX_written + j) := by
      unfold isInt INT_MIN INT_MAX at hnm ⊢
      constructor
      · linarith
      · linarith [hnm.2]
    rw [wrapInt_wrapInt_add, wrapInt_of_isInt hidx]
    unfold cell
    have htoNat : ((i : Int) * MAX_written + j).toNat = i * MAX_written.toNat + j := by
      have : ((i * MAX_written.toNat + j : Nat) : Int) = (i : Int) * MAX_written + j := by
        push_cast
        rw [Int.toNat_of_nonneg hM]
      rw [← this]
      exact Int.toNat_ofNat _
    rw [htoNat]
    exact flatten_getD_uniform _ _ hrow 0 i j (by omega)
  · rfl

/-! ## Lemmas on reading a snapshot and on the frame of the migration -/

theorem change_targetstate_loop_compatible {S R T : Type} (ext : Externals S R T)
    (sgs ts : Nat → Int) (fuel : Nat) :
    ∀ (i : Nat) (s : GlobalState S R T),
      (∀ j, i ≤ j → j < i + fuel → sgs j = s.sgs j ∧ ts j = s.target_state j) →
      change_targetstate_loop ext sgs ts fuel i s = some (0, s) ∧
        seniority_calls ext sgs ts fuel i s = [] := by
  induction fuel with
  | zero => intro i s _; exact ⟨rfl, rfl⟩
  | succ fuel ih =>
    intro i s h
    obtain ⟨h1, h2⟩ := h i (le_refl i) (by omega)
    unfold change_targetstate_loop seniority_calls
    rw [if_neg (not_not.mpr h1), if_neg (not_not.mpr h2), if_neg (not_not.mpr h1),
      if_neg (not_not.mpr h2)]
    exact ih (i + 1) s (fun j hj1 hj2 => h j (by omega) (by omega))

theorem adopt_symmetries_adopted {S R T : Type} (s : GlobalState S R T)
    (sgs ts : Nat → Int) (nrSyms : Int) (hs : s.nrSyms = -1) :
    (adopt_symmetries s sgs ts nrSyms).nrSyms = nrSyms ∧
      (∀ i : Nat, (i : Int) < nrSyms →
        (adopt_symmetries s sgs ts nrSyms).sgs i = sgs i ∧
          (adopt_symmetries s sgs ts nrSyms).target_state i = ts i) ∧
      (adopt_symmetries s sgs ts nrSyms).sites = s.sites ∧
      (adopt_symmetries s sgs ts nrSyms).nr_bonds = s.nr_bonds := by
  unfold adopt_symmetries
  rw [if_pos hs]
  refine ⟨rfl, ?_, rfl, rfl⟩
  intro i hi
  simp only [hi, if_true, and_self]

theorem read_bookkeeper_config {R T : Type} (u : Uninit) (MAX_SYMMETRIES : Int)
    (file_id : Option H5Group) (s : GlobalState symsecs R T) (sgs ts : Nat → Int)
    (nrSyms : Int) (bk : GlobalState symsecs R T × (Nat → Int) × (Nat → Int) × Int)
    (h : read_bookkeeper_from_disk u MAX_SYMMETRIES file_id s sgs ts nrSyms = .ok bk) :
    bk.1.nrSyms = s.nrSyms ∧ bk.1.sites = s.sites ∧ bk.1.nr_bonds = s.nr_bonds := by
  simp only [read_bookkeeper_from_disk] at h
  split_ifs at h
  simp only [Except.ok.injEq] at h
  subst h
  exact ⟨rfl, rfl, rfl⟩

theorem except_isOk_ok {ε α : Type} (x : Except ε α) (h : x.isOk = true) : ∃ a, x = .ok a := by
  cases x with
  | error e => simp [Except.isOk, Except.toBool] at h
  | ok a => exact ⟨a, rfl⟩

theorem endbond_loop_spec (bonds : Nat → Int × Int) (fuel : Nat) :
    ∀ e, e ≤ endbond_loop bonds fuel e ∧ endbond_loop bonds fuel e ≤ e + fuel ∧
      (∀ b, e ≤ b → b < endbond_loop bonds fuel e → (bonds b).2 ≠ -1) ∧
      (endbond_loop bonds fuel e < e + fuel → (bonds (endbond_loop bonds fuel e)).2 = -1) := by
  induction fuel with
  | zero =>
    intro e
    simp only [endbond_loop]
    exact ⟨le_refl e, by omega, fun b h1 h2 => by omega, fun h => by omega⟩
  | succ fuel ih =>
    intro e
    simp only [endbond_loop]
    split_ifs with h
    · exact ⟨le_refl e, by omega, fun b h1 h2 => by omega, fun _ => h⟩
    · obtain ⟨h1, h2, h3, h4⟩ := ih (e + 1)
      refine ⟨by omega, by omega, ?_, fun hlt => h4 (by omega)⟩
      intro b hb1 hb2
      rcases Nat.eq_or_lt_of_le hb1 with rfl | hlt
      · exact h
      · exact h3 b hlt hb2

/-! ## The properties of the specification -/

/-- C1: for all labels `a`, `b` and every sign in `{+1, -1}`,
`U1_tensprod_irrep(a, b, sign)` sets `min_irrep = a + sign*b`, `nr_irreps = 1`
and `step = 1`, the sum being one an `int` can hold. -/
theorem U1_tensprod_irrep_spec (a b sign : Int) (hs : sign = 1 ∨ sign = -1)
    (hr : isInt (a + sign * b)) :
    U1_tensprod_irrep a b sign = (a + sign * b, 1, 1) := by
  unfold U1_tensprod_irrep
  rcases hs with rfl | rfl <;> rw [wrapInt_add_wrapInt, wrapInt_of_isInt hr]

theorem U1_tensprod_irrep_spec_witness :
    isInt (7 + (-1) * 3) ∧ U1_tensprod_irrep 7 3 (-1) = (7 + (-1) * 3, 1, 1) :=
  ⟨by decide, U1_tensprod_irrep_spec 7 3 (-1) (Or.inr rfl) (by decide)⟩

/-- C2, as stated, fails: with `A = {0}`, `B = {-5}` and `sign = -1` the
fused label is `5`, and `U1_get_max_irrep` returns `1`. -/
theorem U1_get_max_irrep_underestimates :
    (U1_tensprod_irrep 0 (-5) (-1)).1 = 5 ∧
      U1_get_max_irrep (fun _ _ => 0) 1 (fun _ _ => -5) 1 0 = 1 ∧
      ¬ ((U1_tensprod_irrep 0 (-5) (-1)).1 <
        U1_get_max_irrep (fun _ _ => 0) 1 (fun _ _ => -5) 1 0) := by
  decide

/-- C2, amended: for every label `a` of the first set and `b` of the second,
the label of `U1_tensprod_irrep(a, b, sign)` is below `U1_get_max_irrep`
when `sign = +1`, and when `sign = -1` and `b` is not negative, the fused
label and `N1max + N2max + 1` being values an `int` can hold. -/
theorem U1_get_max_irrep_bound (prop1 prop2 : Nat → Nat → Int) (nr1 nr2 : Int)
    (whichsym i j : Nat) (sign : Int)
    (hi : (i : Int) < nr1) (hj : (j : Int) < nr2) (hs : sign = 1 ∨ sign = -1)
    (hb : sign = -1 → 0 ≤ prop2 j whichsym)
    (hr : isInt (prop1 i whichsym + sign * prop2 j whichsym))
    (hmax : U1_max_loop prop1 whichsym nr1.toNat + U1_max_loop prop2 whichsym nr2.toNat + 1
      ≤ INT_MAX) :
    (U1_tensprod_irrep (prop1 i whichsym) (prop2 j whichsym) sign).1 <
      U1_get_max_irrep prop1 nr1 prop2 nr2 whichsym := by
  have h1 := U1_max_loop_ge prop1 whichsym nr1.toNat i (by omega)
  have h2 := U1_max_loop_ge prop2 whichsym nr2.toNat j (by omega)
  have n1 := U1_max_loop_nonneg prop1 whichsym nr1.toNat
  have n2 := U1_max_loop_nonneg prop2 whichsym nr2.toNat
  have hbound : isInt (U1_max_loop prop1 whichsym nr1.toNat +
      U1_max_loop prop2 whichsym nr2.toNat + 1) := by
    unfold isInt INT_MIN INT_MAX
    unfold INT_MAX at hmax
    constructor <;> omega
  simp only [U1_tensprod_irrep, U1_get_max_irrep]
  rw [wrapInt_add_wrapInt, wrapInt_of_isInt hr, wrapInt_wrapInt_add, wrapInt_of_isInt hbound]
  rcases hs with rfl | rfl
  · omega
  · have := hb rfl
    omega

theorem U1_get_max_irrep_bound_witness :
    (U1_tensprod_irrep 3 2 (-1)).1 <
      U1_get_max_irrep (fun _ _ => 3) 1 (fun _ _ => 2) 1 0 :=
  U1_get_max_irrep_bound (fun _ _ => 3) (fun _ _ => 2) 1 1 0 0 0 (-1)
    (by decide) (by decide) (Or.inr rfl) (fun _ => by decide) (by decide) (by decide)

/-- C3, as stated, fails: `-1 = 0 + (-1)*1` is a label `U1_tensprod_irrep`
produces; `U1_get_irrstring` writes it as `-1`, and `U1_which_irrep` reads
`-1` back and returns `0`. -/
theorem U1_negative_label_not_read_back :
    (U1_tensprod_irrep 0 1 (-1)).1 = -1 ∧
      U1_which_irrep (U1_get_irrstring 255 (U1_tensprod_irrep 0 1 (-1)).1) = (0, -1) := by
  have hl : (U1_tensprod_irrep 0 1 (-1)).1 = -1 := by decide
  refine ⟨hl, ?_⟩
  rw [hl, U1_get_irrstring_eq (by norm_num) (by decide), U1_which_irrep_formatInt (by decide)]
  decide

/-- C3, amended: for every label `l` that `U1_tensprod_irrep` produces,
`U1_which_irrep` applied to the text of `U1_get_irrstring(l)` stores exactly
`l`, and returns `1` when `l` is not negative and `0` when it is; the buffer
of `MY_STRING_LEN` characters holds the eleven of an `int` and the NUL. -/
theorem U1_irrstring_roundtrip (MY_STRING_LEN : Nat) (hL : 12 ≤ MY_STRING_LEN)
    (a b sign : Int) :
    U1_which_irrep (U1_get_irrstring MY_STRING_LEN (U1_tensprod_irrep a b sign).1) =
      (if 0 ≤ (U1_tensprod_irrep a b sign).1 then 1 else 0, (U1_tensprod_irrep a b sign).1) := by
  have hl : isInt (U1_tensprod_irrep a b sign).1 := isInt_wrapInt _
  rw [U1_get_irrstring_eq hL hl, U1_which_irrep_formatInt hl]

theorem U1_irrstring_roundtrip_witness :
    12 ≤ 255 ∧
      U1_which_irrep (U1_get_irrstring 255 (U1_tensprod_irrep 7 3 (-1)).1) =
        (if 0 ≤ (U1_tensprod_irrep 7 3 (-1)).1 then 1 else 0, (U1_tensprod_irrep 7 3 (-1)).1) :=
  ⟨by decide, U1_irrstring_roundtrip 255 (by decide) 7 3 (-1)⟩

/-- C4, as stated, fails: a numeral followed by other characters, and a
numeral after white space, are read with success. -/
theorem U1_which_irrep_accepts_trailing :
    U1_which_irrep ['1', '2', 'a', 'b', 'c'] = (1, 12) ∧
      U1_which_irrep [' ', '1', '2'] = (1, 12) := by
  decide

/-- C4, amended: `U1_which_irrep` returns `0`, and stores `0`, for every text
in which no digit follows the leading white space and one optional sign (the
empty text and every text without digits are such). It returns `0` for every text that begins with `0`
when the `int` that `atoi` stores is not `0`, which a numeral with an `int`
value other than zero and superfluous leading zeros is. It returns `1`
exactly when `atoi` stores a positive `int` and the text does not begin with
`0`, or `atoi` stores `0` and the text begins with `0`. -/
theorem U1_which_irrep_malformed (buffer : List Char) :
    ((∀ c, (atoi_numeral buffer).head? = some c → isdigit c = false) →
        U1_which_irrep buffer = (0, 0)) ∧
      (buffer.head? = some '0' → atoi buffer ≠ 0 → (U1_which_irrep buffer).1 = 0) ∧
      (buffer.head? = some '0' → isInt (atoi_signed (buffer.dropWhile isspace)) →
        atoi_signed (buffer.dropWhile isspace) ≠ 0 → (U1_which_irrep buffer).1 = 0) ∧
      ((U1_which_irrep buffer).1 = 1 ↔
        (0 < atoi buffer ∧ buffer.head? ≠ some '0') ∨
          (atoi buffer = 0 ∧ buffer.head? = some '0')) := by
  refine ⟨?_, ?_, ?_, ?_⟩
  · intro h
    have hd := atoi_digits_head_not_digit _ h
    have hat : atoi buffer = 0 := by
      unfold atoi
      rcases atoi_signed_eq_numeral buffer with he | he <;> rw [he, hd] <;> decide
    have hhead : ¬ buffer.head? = some '0' := by
      intro hc
      have := h '0' (atoi_numeral_of_head_zero buffer hc)
      exact absurd this (by decide)
    simp [U1_which_irrep, hat, hhead]
  · intro h0 hv
    simp [U1_which_irrep, hv, h0]
  · intro h0 hi hv
    have hv' : atoi buffer ≠ 0 := by rw [atoi_of_isInt hi]; exact hv
    simp [U1_which_irrep, hv', h0]
  · simp only [U1_which_irrep]
    by_cases h0 : buffer.head? = some '0' <;> by_cases hv : atoi buffer = 0
    · simp [h0, hv]
    · simp only [h0, hv, ne_eq, not_false_eq_true, decide_True, Bool.xor_self,
        Bool.false_eq_true, if_false, not_true_eq_false, and_false, and_true, or_false]
      decide
    · simp [h0, hv]
    · by_cases hp : 0 < atoi buffer
      · have hge : atoi buffer ≥ 0 := by omega
        simp [h0, hv, hp, hge]
      · have hge : ¬ atoi buffer ≥ 0 := by omega
        simp [h0, hv, hp, hge]

theorem U1_which_irrep_malformed_witness :
    U1_which_irrep ['a', 'b', 'c'] = (0, 0) ∧ (U1_which_irrep ['0', '1', '2']).1 = 0 :=
  ⟨(U1_which_irrep_malformed ['a', 'b', 'c']).1 (by decide),
    (U1_which_irrep_malformed ['0', '1', '2']).2.1 (by decide) (by decide)⟩

/-- C5, as stated, fails: the value of the text `-2147483649` is negative;
`atoi` stores `2147483647` for it and `U1_which_irrep` returns `1`. -/
theorem U1_which_irrep_accepts_below_INT_MIN :
    atoi_signed (['-', '2', '1', '4', '7', '4', '8', '3', '6', '4', '9'].dropWhile isspace)
        = -2147483649 ∧
      U1_which_irrep ['-', '2', '1', '4', '7', '4', '8', '3', '6', '4', '9']
        = (1, 2147483647) := by
  decide

/-- C5, amended: `U1_which_irrep` returns `0` for every text whose value is
negative and not below `INT_MIN`, and whenever the `int` that `atoi` stores
is negative; what it returns is always `0` or `1`. -/
theorem U1_which_irrep_domain (buffer : List Char) :
    (INT_MIN ≤ atoi_signed (buffer.dropWhile isspace) →
        atoi_signed (buffer.dropWhile isspace) < 0 → (U1_which_irrep buffer).1 = 0) ∧
      (atoi buffer < 0 → (U1_which_irrep buffer).1 = 0) ∧
      ((U1_which_irrep buffer).1 = 0 ∨ (U1_which_irrep buffer).1 = 1) := by
  have hneg : atoi buffer < 0 → (U1_which_irrep buffer).1 = 0 := by
    intro hneg
    simp only [U1_which_irrep]
    have : ¬ atoi buffer ≥ 0 := by omega
    split_ifs <;> rfl
  refine ⟨?_, hneg, ?_⟩
  · intro hlo hlt
    apply hneg
    rw [atoi_of_isInt (by unfold isInt INT_MAX; exact ⟨hlo, by omega⟩)]
    exact hlt
  · simp only [U1_which_irrep]
    split_ifs <;> simp

theorem U1_which_irrep_domain_witness :
    atoi_signed (['-', '5'].dropWhile isspace) = -5 ∧ (U1_which_irrep ['-', '5']).1 = 0 :=
  ⟨by decide, (U1_which_irrep_domain ['-', '5']).1 (by decide) (by decide)⟩

/-- C6: `change_targetstate` returns `0` exactly when every index below
`nrSyms` is accepted: the snapshot's group tag equals the configured one,
and the target labels are equal or the group is `SENIORITY` and
`change_seniority` returns `0`. A differing target label on a group that is
not `SENIORITY` makes it return `1`, in a network with an open bond. -/
theorem change_targetstate_spec {S R T : Type} (ext : Externals S R T)
    (s : GlobalState S R T) (sgs target_state : Nat → Int) (nrSyms : Int) :
    ((∃ s', change_targetstate ext s sgs target_state nrSyms = some (0, s')) ↔
        ∀ i : Nat, (i : Int) < nrSyms → indexAccepted ext s sgs target_state i) ∧
      (∀ i : Nat, (i : Int) < nrSyms → hasOpenBond s → sgs i ≠ ext.SENIORITY →
        target_state i ≠ s.target_state i →
        ∃ s', change_targetstate ext s sgs target_state nrSyms = some (1, s')) := by
  have hiff : (∃ s', change_targetstate ext s sgs target_state nrSyms = some (0, s')) ↔
      ∀ i : Nat, (i : Int) < nrSyms → indexAccepted ext s sgs target_state i := by
    unfold change_targetstate
    rw [change_targetstate_loop_accepts]
    constructor
    · intro h i hi; exact h i (Nat.zero_le i) (by omega)
    · intro h j _ hj; exact h j (by omega)
  refine ⟨hiff, ?_⟩
  intro i hi hopen hsen hdiff
  obtain ⟨r, s', hres, hr⟩ :=
    change_targetstate_loop_returns ext sgs target_state nrSyms.toNat 0 s hopen
  rcases hr with rfl | rfl
  · exfalso
    have hacc := (hiff.mp ⟨s', hres⟩) i hi
    rcases hacc.2 with h | ⟨h, _⟩
    · exact hdiff h
    · exact hsen h
  · exact ⟨s', hres⟩

theorem change_targetstate_spec_witness :
    hasOpenBond exState ∧ exSgs 1 ≠ exExt.SENIORITY ∧
      (fun i => if i = 0 then (4 : Int) else 3) 1 ≠ exState.target_state 1 ∧
      ∃ s', change_targetstate exExt exState exSgs (fun i => if i = 0 then 4 else 3) 2 =
        some (1, s') :=
  ⟨by decide, by decide, by decide,
    (change_targetstate_spec exExt exState exSgs (fun i => if i = 0 then 4 else 3) 2).2 1
      (by decide) (by decide) (by decide) (by decide)⟩

/-- C7, as stated, fails: the snapshot's first group is seniority with a
label that converts, its second group has a differing label and is not
seniority. `change_targetstate` returns `1`, and the sector list and the
operator set of the open bond are those of the conversion, not the ones
before the call. -/
theorem change_targetstate_partial_migration :
    (change_targetstate exExt exState exSgs exTarget 2).map
        (fun r => (r.1, (r.2.v_symsecs 0).irreps, r.2.ops 0)) = some (1, [[4, 5]], (0, 0)) ∧
      (exState.v_symsecs 0).irreps = [[2, 3]] ∧ exState.ops 0 = (0, 1) := by
  decide

/-- C7, amended: when the target labels of all groups below index `k` agree
and group `k` has a differing label and is not seniority, or is seniority
with a negative old or new label in a network with an open bond, then
`change_targetstate` returns `1` and leaves the state as it was. -/
theorem change_targetstate_reject_unchanged {S R T : Type} (ext : Externals S R T)
    (s : GlobalState S R T) (sgs target_state : Nat → Int) (nrSyms : Int) (k : Nat)
    (hk : (k : Int) < nrSyms)
    (hbefore : ∀ j, j < k → target_state j = s.target_state j)
    (hdiff : target_state k ≠ s.target_state k)
    (hoff : sgs k ≠ ext.SENIORITY ∨
      (hasOpenBond s ∧ (s.target_state k < 0 ∨ target_state k < 0))) :
    change_targetstate ext s sgs target_state nrSyms = some (1, s) := by
  unfold change_targetstate
  exact change_targetstate_loop_reject ext sgs target_state k nrSyms.toNat 0 s
    (Nat.zero_le k) (by omega) (fun j _ h => hbefore j h) hdiff hoff

theorem change_targetstate_reject_unchanged_witness :
    change_targetstate exExt exState exSgs (fun i => if i = 0 then 4 else 3) 2 =
      some (1, exState) :=
  change_targetstate_reject_unchanged exExt exState exSgs (fun i => if i = 0 then 4 else 3) 2 1
    (by decide) (by decide) (by decide) (Or.inl (by decide))

/-- C8, as stated, fails: with the old and the new seniority label both the
fixed value `-1`, `change_seniority` returns `0`, success. -/
theorem change_seniority_equal_negative :
    exStateFixed.target_state 0 = -1 ∧
      (change_seniority exExt exStateFixed 0 (-1)).map Prod.fst = some 0 := by
  decide

/-- C8, amended: when the old and the new seniority label differ and one of
them is negative, `change_seniority`, in a network with an open bond,
returns `1` and leaves the whole state, the open bond's sector list, its
operator set and the end tensor included, as it was. -/
theorem change_seniority_negative {S R T : Type} (ext : Externals S R T)
    (s : GlobalState S R T) (seniorsym : Nat) (oldsenior : Int)
    (hne : oldsenior ≠ s.target_state seniorsym) (hopen : hasOpenBond s)
    (hneg : s.target_state seniorsym < 0 ∨ oldsenior < 0) :
    change_seniority ext s seniorsym oldsenior = some (1, s) :=
  change_seniority_reject ext s seniorsym oldsenior hne hopen hneg

theorem change_seniority_negative_witness :
    change_seniority exExt exState 0 (-1) = some (1, exState) :=
  change_seniority_negative exExt exState 0 (-1) (by decide) (by decide) (Or.inr (by decide))

/-- C9: with the old label equal to the new one `change_seniority` returns
`0` and the state it was given, for every state and every label; so does
any number of such calls in a row. -/
theorem change_seniority_noop {S R T : Type} (ext : Externals S R T)
    (s : GlobalState S R T) (seniorsym : Nat) :
    change_seniority ext s seniorsym (s.target_state seniorsym) = some (0, s) ∧
      ∀ n : Nat,
        Nat.iterate
          (fun o => o.bind (fun r => change_seniority ext r.2 seniorsym
            (r.2.target_state seniorsym))) n (some (0, s)) = some (0, s) := by
  have h1 : ∀ t : GlobalState S R T,
      change_seniority ext t seniorsym (t.target_state seniorsym) = some (0, t) := by
    intro t
    simp [change_seniority]
  refine ⟨h1 s, ?_⟩
  intro n
  induction n with
  | zero => rfl
  | succ n ih =>
    rw [Function.iterate_succ_apply']
    rw [ih]
    exact h1 s

/-- C10: the configuration has two groups, the snapshot declares one, whose
tag and label equal the configured first group. `change_targetstate`
returns `0` and reports no mismatch. -/
theorem change_targetstate_count_mismatch :
    exState.nrSyms = 2 ∧
      change_targetstate exExt exState exSgs exState.target_state 1 = some (0, exState) ∧
      change_targetstate exExt exState exSgs exState.target_state 0 = some (0, exState) := by
  refine ⟨rfl, ?_, ?_⟩ <;> rfl

/-- C19: for a location that is not empty and a file name, with the joined
name shorter than `size`, `make_h5f_name` leaves the location without one
trailing `/`, then `/`, then the file name without one leading `/`, a text
of at most `size - 1` characters. For a file name that is not empty and does
not start with `/`, as the `T3NScalc.h5` of `write_to_disk`, and a joined name
of `size` characters or more, the function does not leave a text cut to
`size - 1` characters: it writes outside the buffer, the NUL of
`strncat(hdf5_resulting, hdf5file, size - len)` or the one after the added
`/` going to `hdf5_resulting[size]`. -/
theorem make_h5f_name_overrun (hdf5_loc hdf5file : List Char) (size : Int) :
    (hdf5_loc ≠ [] → ((joined_name hdf5_loc hdf5file).length : Int) < size →
        make_h5f_name hdf5_loc hdf5file size = some (joined_name hdf5_loc hdf5file) ∧
          ((joined_name hdf5_loc hdf5file).length : Int) ≤ size - 1) ∧
      (hdf5file ≠ [] → hdf5file.head? ≠ some '/' →
        size ≤ ((joined_name hdf5_loc hdf5file).length : Int) →
        make_h5f_name hdf5_loc hdf5file size = none) :=
  ⟨fun hloc hsize => ⟨make_h5f_name_joined _ _ _ hloc hsize, by omega⟩,
    fun hf hF hlong => make_h5f_name_none_of_long _ _ _ hf hF hlong⟩

set_option maxRecDepth 100000 in
theorem make_h5f_name_overrun_witness :
    make_h5f_name ['o', 'u', 't', '/'] ['/', 'T', '3', 'N', 'S', 'c', 'a', 'l', 'c', '.', 'h', '5']
        255 = some ['o', 'u', 't', '/', 'T', '3', 'N', 'S', 'c', 'a', 'l', 'c', '.', 'h', '5'] ∧
      make_h5f_name (List.replicate 243 'a')
        ['T', '3', 'N', 'S', 'c', 'a', 'l', 'c', '.', 'h', '5'] 255 = none ∧
      make_h5f_name ['a', 'b', 'c'] ['d', 'e'] 6 = none :=
  ⟨((make_h5f_name_overrun ['o', 'u', 't', '/']
      ['/', 'T', '3', 'N', 'S', 'c', 'a', 'l', 'c', '.', 'h', '5'] 255).1
        (by decide) (by decide)).1,
    (make_h5f_name_overrun (List.replicate 243 'a')
      ['T', '3', 'N', 'S', 'c', 'a', 'l', 'c', '.', 'h', '5'] 255).2
        (by decide) (by decide) (by decide),
    (make_h5f_name_overrun ['a', 'b', 'c'] ['d', 'e'] 6).2
        (by decide) (by decide) (by decide)⟩

/-- C11: `read_bookkeeper_from_disk` ends the program when the `nrSyms` the
snapshot declares exceeds `MAX_SYMMETRIES`, and by then it has opened the
group of the bookkeeper, read the attribute `nrSyms` and printed its
message, and made no other call: it has read no group tags, no target state
and no sector list, and has allocated no buffer. When the declared `nrSyms`
does not exceed `MAX_SYMMETRIES` the function returns, and its calls go on
with the reads of `Max_symmetries`, `sgs`, `target_state` and `nr_bonds` and
the allocation for the sector lists of the bonds. -/
theorem read_bookkeeper_max_symmetries {R T : Type} (u : Uninit) (MAX_SYMMETRIES : Int)
    (file_id : Option H5Group) (s : GlobalState symsecs R T) (sgs target_state : Nat → Int)
    (nrSyms : Int) :
    (read_bookkeeper_from_disk_calls u MAX_SYMMETRIES file_id s sgs target_state nrSyms).2 =
        read_bookkeeper_from_disk u MAX_SYMMETRIES file_id s sgs target_state nrSyms ∧
    (MAX_SYMMETRIES <
        store_int (read_attribute (H5Gopen file_id (.fixed "/bookkeeper")) "nrSyms") nrSyms →
      read_bookkeeper_from_disk u MAX_SYMMETRIES file_id s sgs target_state nrSyms =
          .error .exit_failure ∧
        read_bookkeeper_from_disk_calls u MAX_SYMMETRIES file_id s sgs target_state nrSyms =
          ([.H5Gopen (.fixed "/bookkeeper"), .read_attribute "nrSyms", .fprintf],
            .error .exit_failure)) ∧
    (store_int (read_attribute (H5Gopen file_id (.fixed "/bookkeeper")) "nrSyms") nrSyms ≤
        MAX_SYMMETRIES →
      ∃ r rest,
        read_bookkeeper_from_disk u MAX_SYMMETRIES file_id s sgs target_state nrSyms = .ok r ∧
        read_bookkeeper_from_disk_calls u MAX_SYMMETRIES file_id s sgs target_state nrSyms =
          ([.H5Gopen (.fixed "/bookkeeper"), .read_attribute "nrSyms",
              .read_attribute "Max_symmetries", .read_attribute "sgs",
              .read_attribute "target_state", .read_attribute "nr_bonds",
              .safe_malloc (store_int
                (read_attribute (H5Gopen file_id (.fixed "/bookkeeper")) "nr_bonds")
                s.bookie_nr_bonds)] ++ rest, .ok r)) := by
  refine ⟨?_, ?_, ?_⟩
  · simp only [read_bookkeeper_from_disk_calls, read_bookkeeper_from_disk]
    split_ifs <;> rfl
  · intro h
    simp only [read_bookkeeper_from_disk_calls, read_bookkeeper_from_disk]
    rw [if_pos (by omega), if_pos (by omega)]
    exact ⟨rfl, rfl⟩
  · intro h
    simp only [read_bookkeeper_from_disk_calls, read_bookkeeper_from_disk]
    rw [if_neg (by omega), if_neg (by omega)]
    refine ⟨_, read_symsecs_loop_calls (H5Gopen file_id (.fixed "/bookkeeper")) u.symsecs
        (store_int (read_attribute (H5Gopen file_id (.fixed "/bookkeeper")) "Max_symmetries")
          (u.int 0)) 'v'
        (store_int (read_attribute (H5Gopen file_id (.fixed "/bookkeeper")) "nr_bonds")
          s.bookie_nr_bonds).toNat ++
      ([.read_attribute "psites",
        .safe_malloc (store_int
          (read_attribute (H5Gopen file_id (.fixed "/bookkeeper")) "psites") s.bookie_psites)] ++
      (read_symsecs_loop_calls (H5Gopen file_id (.fixed "/bookkeeper")) u.symsecs
        (store_int (read_attribute (H5Gopen file_id (.fixed "/bookkeeper")) "Max_symmetries")
          (u.int 0)) 'p'
        (store_int (read_attribute (H5Gopen file_id (.fixed "/bookkeeper")) "psites")
          s.bookie_psites).toNat ++ [.H5Gclose])), rfl, ?_⟩
    simp only [List.append_assoc, List.singleton_append, List.cons_append, List.nil_append]

theorem read_bookkeeper_max_symmetries_witness :
    read_bookkeeper_from_disk exUninit 1 (some exSnapshot) exFreshState exUninit.int
        exUninit.int 0 = .error .exit_failure ∧
      read_bookkeeper_from_disk_calls exUninit 1 (some exSnapshot) exFreshState exUninit.int
        exUninit.int 0 =
          ([.H5Gopen (.fixed "/bookkeeper"), .read_attribute "nrSyms", .fprintf],
            .error .exit_failure) :=
  (read_bookkeeper_max_symmetries exUninit 1 (some exSnapshot) exFreshState exUninit.int
    exUninit.int 0).2.1 (by decide)

/-- C13: for a site tensor with the layout of `siteTensor_layout`,
`read_siteTensor_from_disk` applied to what `write_siteTensor_to_disk`
stored under the same index, in a group that had no tensor of that index,
returns with equal `nrsites`, `sites`, `nrblocks`, `qnumbers` and
`beginblock`, and with the same elements in `tel`. -/
theorem siteTensor_roundtrip (u : Uninit) (id : H5Group) (tens old : siteTensor) (nmbr : Int)
    (hnew : lookup_entry (H5Name.tensor nmbr) id.groups = none)
    (hl : siteTensor_layout tens) :
    ∃ tens', read_siteTensor_from_disk u (some (write_siteTensor_to_disk id tens nmbr)) old
        nmbr = .ok tens' ∧
      tens'.nrsites = tens.nrsites ∧ tens'.sites = tens.sites ∧
      tens'.nrblocks = tens.nrblocks ∧ tens'.qnumbers = tens.qnumbers ∧
      tens'.blocks.beginblock = tens.blocks.beginblock ∧
      tens'.blocks.tel.getD [] = tens.blocks.tel.getD [] :=
  read_write_siteTensor u id tens old nmbr hnew hl

theorem siteTensor_roundtrip_witness :
    siteTensor_layout exTensor ∧
      ∃ tens', read_siteTensor_from_disk exUninit
          (some (write_siteTensor_to_disk H5Group.empty exTensor 4)) (exUninit.siteTensor 4)
          4 = .ok tens' ∧
        tens'.nrsites = exTensor.nrsites ∧ tens'.sites = exTensor.sites ∧
        tens'.nrblocks = exTensor.nrblocks ∧ tens'.qnumbers = exTensor.qnumbers ∧
        tens'.blocks.beginblock = exTensor.blocks.beginblock ∧
        tens'.blocks.tel.getD [] = exTensor.blocks.tel.getD [] :=
  ⟨by decide,
    siteTensor_roundtrip exUninit H5Group.empty exTensor (exUninit.siteTensor 4) 4 rfl
      (by decide)⟩

/-- C15: `write_symsec_to_disk` of a build with `MAX_written` slots stores
rows of `MAX_written` labels; `read_symsec_from_disk` with that row stride
and `nrSyms <= MAX_written` active groups returns equal `nrSecs`,
`totaldims`, `dims` and `fcidims`, and in every sector `i < nrSecs` the
written label for every group `j < nrSyms`; the other slots of the row are
as they were allocated, nothing of the padding is read into them. -/
theorem symsec_roundtrip (u : Uninit) (MAX_written MAX_SYMMETRIES : Int) (id : H5Group)
    (ssec old : symsecs) (nmbr : Int) (kind : Char) (nrSyms : Int)
    (hnew : lookup_entry (H5Name.symsec kind nmbr) id.groups = none)
    (hl : symsecs_layout MAX_written ssec) (hle : nrSyms ≤ MAX_written) :
    ∃ r, read_symsec_from_disk u MAX_SYMMETRIES
        (some (write_symsec_to_disk MAX_written id ssec nmbr kind)) old nmbr MAX_written nrSyms
        kind = r ∧
      r.nrSecs = ssec.nrSecs ∧ r.totaldims = ssec.totaldims ∧ r.dims = ssec.dims ∧
      r.fcidims = ssec.fcidims ∧
      (∀ i j : Nat, (i : Int) < ssec.nrSecs → (j : Int) < MAX_SYMMETRIES →
        (r.irreps.getD i []).getD j 0 =
          if (j : Int) < nrSyms then (ssec.irreps.getD i []).getD j 0
          else u.int (i * MAX_SYMMETRIES.toNat + j)) :=
  read_write_symsec u MAX_written MAX_SYMMETRIES id ssec old nmbr kind nrSyms hnew hl hle

theorem symsec_roundtrip_witness :
    symsecs_layout 3 exSymsecs ∧
      ∃ r, read_symsec_from_disk exUninit 4
          (some (write_symsec_to_disk 3 H5Group.empty exSymsecs 1 'v')) (exUninit.symsecs 1) 1
          3 2 'v' = r ∧
        r.nrSecs = exSymsecs.nrSecs ∧ r.totaldims = exSymsecs.totaldims ∧
        r.dims = exSymsecs.dims ∧ r.fcidims = exSymsecs.fcidims ∧
        (∀ i j : Nat, (i : Int) < exSymsecs.nrSecs → (j : Int) < 4 →
          (r.irreps.getD i []).getD j 0 =
            if (j : Int) < 2 then (exSymsecs.irreps.getD i []).getD j 0
            else exUninit.int (i * (4 : Int).toNat + j)) :=
  ⟨by decide,
    symsec_roundtrip exUninit 3 4 H5Group.empty exSymsecs (exUninit.symsecs 1) 1 'v' 2 rfl
      (by decide) (by decide)⟩

/-- C16: with `nrblocks == 0`, `write_sparseblocks_to_disk` stores a group
with the attribute `nrBlocks = 0` and no dataset; `write_dataset` writes
nothing for a payload of length zero; `read_sparseblocks_from_disk` of a
group with `nrBlocks == 0` leaves a null `beginblock` and a null `tel`, and
leaves a null `tel` whenever `beginblock[nrblocks] == 0`. -/
theorem sparseblocks_empty_blocks (u : Uninit) (id : H5Group) (block old : sparseblocks)
    (nrblocks nmbr : Int) :
    write_sparseblocks_to_disk id (some block) 0 nmbr =
        H5Gclose_created id (.block nmbr)
          (.mk [("nrBlocks", ⟨.THDF5_INT, .ints [0]⟩)] [] []) ∧
      (∀ (g : H5Group) (datname : String) (dat : Option Buffer) (kind : hdf5type),
        write_dataset g datname dat 0 kind = g) ∧
      (∀ g, H5Gopen (some id) (.block nmbr) = some g →
        store_int (read_attribute (some g) "nrBlocks") (u.int 0) = 0 →
        read_sparseblocks_from_disk u (some id) old 0 nmbr =
          .ok { beginblock := none, tel := none }) ∧
      (∀ g, H5Gopen (some id) (.block nmbr) = some g →
        store_int (read_attribute (some g) "nrBlocks") (u.int 0) = nrblocks →
        cell (store_ints (read_dataset (some g) "./beginblock")
          (safe_malloc_int u (wrapInt (nrblocks + 1)))) nrblocks = 0 →
        ∃ b, read_sparseblocks_from_disk u (some id) old nrblocks nmbr = .ok b ∧
          b.tel = none) := by
  refine ⟨rfl, ?_, ?_, ?_⟩
  · intro g datname dat kind
    unfold write_dataset
    cases dat <;> simp
  · intro g hg hcount
    unfold read_sparseblocks_from_disk
    rw [hg]
    simp only [hcount, ne_eq, not_true_eq_false, if_false, if_true]
  · intro g hg hcount hzero
    unfold read_sparseblocks_from_disk
    rw [hg]
    simp only [hcount, ne_eq, not_true_eq_false, if_false]
    by_cases h0 : nrblocks = 0
    · rw [if_pos h0]
      exact ⟨_, rfl, rfl⟩
    · rw [if_neg h0, if_pos hzero]
      exact ⟨_, rfl, rfl⟩

theorem sparseblocks_empty_blocks_witness :
    read_sparseblocks_from_disk exUninit
        (some (write_sparseblocks_to_disk H5Group.empty
          (some { beginblock := none, tel := none }) 0 3))
        { beginblock := some [0], tel := some [] } 0 3 =
      .ok { beginblock := none, tel := none } :=
  (sparseblocks_empty_blocks exUninit
    (write_sparseblocks_to_disk H5Group.empty (some { beginblock := none, tel := none }) 0 3)
    { beginblock := none, tel := none } { beginblock := some [0], tel := some [] } 0 3).2.2.1
      _ rfl rfl

/-- C12: when `bookie.nrSyms == -1` and the snapshot declares no more than
`MAX_SYMMETRIES` groups, `read_from_disk` (the tensors and operator sets
being read without a failed assertion) takes the group count of the
snapshot and, for every index below it, the group tag and the target label
of the snapshot; `change_targetstate` then returns `0`, leaves the state as
it is and calls `change_seniority` at no index, and `read_from_disk`
returns `0`. -/
theorem read_from_disk_adopts (u : Uninit) (MAX_SYMMETRIES : Int)
    (ext : Externals symsecs rOperators siteTensor) (rext : ROperatorsExternals)
    (f : H5Group) (s : GlobalState symsecs rOperators siteTensor)
    (hs : s.nrSyms = -1)
    (hmax : store_int (read_attribute (H5Gopen (some f) (.fixed "/bookkeeper")) "nrSyms")
      (u.int 0) ≤ MAX_SYMMETRIES)
    (hT : (read_T3NS_from_disk u (read_network_from_disk u (some f) s).sites (some f)).isOk
      = true)
    (hO : (read_rOps_from_disk u rext (read_network_from_disk u (some f) s).nr_bonds
      (some f)).isOk = true) :
    ∃ s',
      read_from_disk u MAX_SYMMETRIES ext rext (some f) s = .ok (0, s') ∧
      s'.nrSyms =
        store_int (read_attribute (H5Gopen (some f) (.fixed "/bookkeeper")) "nrSyms")
          (u.int 0) ∧
      (∀ i : Nat, (i : Int) < s'.nrSyms →
        s'.sgs i =
            store_map (read_attribute (H5Gopen (some f) (.fixed "/bookkeeper")) "sgs") u.int i ∧
          s'.target_state i =
            store_map (read_attribute (H5Gopen (some f) (.fixed "/bookkeeper")) "target_state")
              u.int i) ∧
      change_targetstate ext s'
          (store_map (read_attribute (H5Gopen (some f) (.fixed "/bookkeeper")) "sgs") u.int)
          (store_map (read_attribute (H5Gopen (some f) (.fixed "/bookkeeper")) "target_state")
            u.int)
          s'.nrSyms = some (0, s') ∧
      seniority_calls ext
          (store_map (read_attribute (H5Gopen (some f) (.fixed "/bookkeeper")) "sgs") u.int)
          (store_map (read_attribute (H5Gopen (some f) (.fixed "/bookkeeper")) "target_state")
            u.int)
          s'.nrSyms.toNat 0 s' = [] := by
  obtain ⟨T3NS, hT'⟩ := except_isOk_ok _ hT
  obtain ⟨ops, hO'⟩ := except_isOk_ok _ hO
  simp only [read_from_disk, read_bookkeeper_from_disk]
  rw [if_neg (by omega)]
  simp only
  have hs1 : (read_network_from_disk u (some f) s).nrSyms = -1 := hs
  generalize hbk : ({ read_network_from_disk u (some f) s with
      bookie_nr_bonds := _, v_symsecs := _, bookie_psites := _, p_symsecs := _ } :
      GlobalState symsecs rOperators siteTensor) = s1
  have hs1' : s1.nrSyms = -1 := by rw [← hbk]; exact hs1
  have hsites : s1.sites = (read_network_from_disk u (some f) s).sites := by rw [← hbk]
  have hbonds : s1.nr_bonds = (read_network_from_disk u (some f) s).nr_bonds := by rw [← hbk]
  obtain ⟨ha1, ha2, ha3, ha4⟩ := adopt_symmetries_adopted s1
    (store_map (read_attribute (H5Gopen (some f) (.fixed "/bookkeeper")) "sgs") u.int)
    (store_map (read_attribute (H5Gopen (some f) (.fixed "/bookkeeper")) "target_state") u.int)
    (store_int (read_attribute (H5Gopen (some f) (.fixed "/bookkeeper")) "nrSyms") (u.int 0))
    hs1'
  generalize adopt_symmetries s1 _ _ _ = sa at ha1 ha2 ha3 ha4 ⊢
  have hT'' : read_T3NS_from_disk u sa.sites (some f) = .ok T3NS := by
    rw [ha3, hsites]; exact hT'
  have hO'' : read_rOps_from_disk u rext sa.nr_bonds (some f) = .ok ops := by
    rw [ha4, hbonds]; exact hO'
  rw [hT'']
  simp only
  rw [hO'']
  simp only
  obtain ⟨hc1, hc2⟩ := change_targetstate_loop_compatible ext
    (store_map (read_attribute (H5Gopen (some f) (.fixed "/bookkeeper")) "sgs") u.int)
    (store_map (read_attribute (H5Gopen (some f) (.fixed "/bookkeeper")) "target_state") u.int)
    (store_int (read_attribute (H5Gopen (some f) (.fixed "/bookkeeper")) "nrSyms")
      (u.int 0)).toNat 0
    { sa with T3NS := T3NS, ops := ops }
    (fun j _ hj => by
      obtain ⟨h1, h2⟩ := ha2 j (by omega)
      exact ⟨h1.symm, h2.symm⟩)
  unfold change_targetstate
  rw [hc1]
  simp only [ne_eq, not_true_eq_false, if_false]
  refine ⟨_, rfl, ha1, ?_, ?_, ?_⟩
  · intro i hi
    exact ha2 i (by rw [← ha1]; exact hi)
  · rw [← ha1] at hc1
    exact hc1
  · rw [← ha1] at hc2
    exact hc2

theorem read_from_disk_adopts_witness :
    ∃ s', read_from_disk exUninit 2 exDiskExt exROpsExt (some exSnapshot) exFreshState =
        .ok (0, s') ∧ s'.nrSyms = 2 ∧ s'.sgs 0 = 11 ∧ s'.target_state 1 = 3 := by
  obtain ⟨s', h1, h2, h3, _, _⟩ := read_from_disk_adopts exUninit 2 exDiskExt exROpsExt
    exSnapshot exFreshState rfl (by decide) (by decide) (by decide)
  have hn : s'.nrSyms = 2 := by rw [h2]; decide
  refine ⟨s', h1, hn, ?_, ?_⟩
  · rw [(h3 0 (by rw [hn]; decide)).1]; decide
  · rw [(h3 1 (by rw [hn]; decide)).2]; decide

/-- C14: the operator set of bond `0` is not attached, `bond_of_operator`
and `is_left` are `-1`, and `write_rOps_to_disk` stores no group for it;
`read_rOps_from_disk` opens that group all the same, so that after reading
the set holds what the memory held, here `7` and `1`, and not `-1`. The
attached set of bond `1` is read back. -/
theorem read_rOps_unattached_not_restored :
    (exSnapshotState.ops 0).bond_of_operator = -1 ∧ (exSnapshotState.ops 0).is_left = -1 ∧
      H5Gopen (H5Gopen (some (write_rOps_to_disk exROpsExt 2 H5Group.empty exSnapshotState.ops))
        (.fixed "/rOps")) (.rOperator 0) = none ∧
      (read_rOps_from_disk exUninit exROpsExt 2
          (some (write_rOps_to_disk exROpsExt 2 H5Group.empty exSnapshotState.ops))).toOption.map
        (fun ops => ((ops 0).bond_of_operator, (ops 0).is_left, (ops 1).bond_of_operator,
          (ops 1).is_left)) = some (7, 1, 1, 1) := by
  refine ⟨by decide, by decide, rfl, ?_⟩
  decide

/-- C18: a call of `change_seniority` with distinct labels that are not
negative, in a network with an open bond, returns `0`; the bond it works on
is the lowest bond whose second site is `-1`; it replaces the sector list of
that bond, sets the operator set of that bond to the vacuum set, and leaves
at the first site of that bond the tensor that `norm_tensor` gives after
`change_sectors_tensor`; the sector lists of all other bonds and of the
physical sites, all other operator sets, all other tensors, the network and
the symmetries are as before. -/
theorem change_seniority_frame {S R T : Type} (ext : Externals S R T)
    (s : GlobalState S R T) (seniorsym : Nat) (oldsenior : Int)
    (hne : oldsenior ≠ s.target_state seniorsym) (hold : 0 ≤ oldsenior)
    (hnew : 0 ≤ s.target_state seniorsym) (hbonds : 0 ≤ s.nr_bonds) (hopen : hasOpenBond s) :
    ∃ s', change_seniority ext s seniorsym oldsenior = some (0, s') ∧
      ((find_endbond s : Int) < s.nr_bonds ∧ (s.bonds (find_endbond s)).2 = -1 ∧
        ∀ b, b < find_endbond s → (s.bonds b).2 ≠ -1) ∧
      (s'.v_symsecs (find_endbond s) = ext.init_targetstate s ∧
        ∀ b, b ≠ find_endbond s → s'.v_symsecs b = s.v_symsecs b) ∧
      ((∃ st, s'.ops (find_endbond s) = ext.init_vacuum_rOperators st (find_endbond s) 0) ∧
        ∀ b, b ≠ find_endbond s → s'.ops b = s.ops b) ∧
      ((∃ st st', s'.T3NS (s.bonds (find_endbond s)).1 =
          ext.norm_tensor st' (ext.change_sectors_tensor st (s.T3NS (s.bonds (find_endbond s)).1)
            (s.v_symsecs (find_endbond s)) (find_endbond s))) ∧
        ∀ t, t ≠ (s.bonds (find_endbond s)).1 → s'.T3NS t = s.T3NS t) ∧
      s'.p_symsecs = s.p_symsecs ∧
      (s'.nrSyms = s.nrSyms ∧ s'.sgs = s.sgs ∧ s'.target_state = s.target_state ∧
        s'.bonds = s.bonds ∧ s'.nr_bonds = s.nr_bonds) := by
  have hspec := endbond_loop_spec s.bonds s.nr_bonds.toNat 0
  have hopen' := hopen
  unfold hasOpenBond at hopen'
  have hfind : find_endbond s = endbond_loop s.bonds s.nr_bonds.toNat 0 := rfl
  rw [← hfind] at hspec
  obtain ⟨_, hle, hbefore, hat⟩ := hspec
  have hlt : (find_endbond s : Int) < s.nr_bonds := by omega
  simp only [change_seniority]
  rw [if_neg hne, if_neg hopen', if_neg (by omega)]
  refine ⟨_, rfl, ?_⟩
  refine ⟨⟨hlt, hat (by omega), fun b hb => hbefore b (Nat.zero_le b) hb⟩, ?_, ?_, ?_,
    rfl, ⟨rfl, rfl, rfl, rfl, rfl⟩⟩
  · exact ⟨Function.update_same _ _ _, fun b hb => Function.update_noteq hb _ _⟩
  · exact ⟨⟨_, Function.update_same _ _ _⟩, fun b hb => Function.update_noteq hb _ _⟩
  · constructor
    · simp only [Function.update_same]
      exact ⟨_, _, rfl⟩
    · intro t ht
      simp only [Function.update_idem]
      exact Function.update_noteq ht _ _

theorem change_seniority_frame_witness :
    ∃ s', change_seniority exExt exState 0 2 = some (0, s') ∧
      (s'.v_symsecs 0).irreps = [[4, 5]] ∧ s'.v_symsecs 1 = exState.v_symsecs 1 ∧
      s'.ops 0 = (0, 0) ∧ s'.ops 1 = exState.ops 1 := by
  obtain ⟨s', h, _, ⟨hv, hvo⟩, ⟨⟨st, ho⟩, hoo⟩, _⟩ := change_seniority_frame exExt exState 0 2
    (by decide) (by decide) (by decide) (by decide) (by decide)
  have he : find_endbond exState = 0 := by decide
  rw [he] at hv ho hvo hoo
  exact ⟨s', h, by rw [hv]; decide, hvo 1 (by decide), by rw [ho]; rfl, hoo 1 (by decide)⟩

end T3NS
